import Mathlib

/-!
Verification of the EmotionVisualizer visualization-generation pipeline.

Shallow embedding of the core backend services:
- `app/services/prompt_builder.py`  (emotion profiles, prompt assembly, dominant colors)
- `app/services/story_analyzer.py`  (tolerant parse of model output, deterministic fallback)
- `app/services/gemini_client.py`   (retry loop, error classification, placeholder renderer)
- `app/api/v1/visualizations.py`    (story endpoint response assembly, error mapping)

Python strings are modelled as Lean `String` (sequences of unicode code points);
Python dicts that hold JSON data are modelled as ordered association lists,
mirroring dict insertion-order semantics.
-/

set_option maxRecDepth 40000

namespace EmotionVisualizer

/-! ## Emotion profile registry (prompt_builder.py, EMOTION_PROFILES) -/

structure EmotionProfile where
  description : String
  colors : List String
  hex_colors : List String
  shapes : String
  energy : String
deriving DecidableEq, Repr

/-- The closed emotion registry, transcribed from `EMOTION_PROFILES` in prompt_builder.py. -/
def EMOTION_PROFILES : String → Option EmotionProfile
  | "super_happy" => some
      { description := "joyful, bright, and uplifting energy"
      , colors := ["warm yellow", "soft orange", "light pink"]
      , hex_colors := ["#FFE4A0", "#FFB899", "#FFD4E5"]
      , shapes := "rising curves and radiating patterns"
      , energy := "moderate" }
  | "pumped" => some
      { description := "dynamic, energetic, and vibrant spirit"
      , colors := ["coral", "peach", "warm gold"]
      , hex_colors := ["#FFB5A0", "#FFDAB9", "#FFD700"]
      , shapes := "bold curves and expanding circles"
      , energy := "intense" }
  | "cozy" => some
      { description := "warm, comfortable, and enveloping feeling"
      , colors := ["warm beige", "soft terracotta", "cream"]
      , hex_colors := ["#D4B896", "#E2A68F", "#FFFDD0"]
      , shapes := "rounded and nested shapes"
      , energy := "calm" }
  | "chill" => some
      { description := "calm, relaxed, and flowing state"
      , colors := ["cool mint", "soft sage", "pale blue"]
      , hex_colors := ["#A8E6CF", "#9DC183", "#ADD8E6"]
      , shapes := "gentle waves and horizontal flow"
      , energy := "calm" }
  | "content" => some
      { description := "peaceful, balanced, and satisfied feeling"
      , colors := ["soft lavender", "dusty rose", "warm gray"]
      , hex_colors := ["#D4C4E8", "#D4A5A5", "#C4C4BC"]
      , shapes := "centered, symmetrical, complete circles"
      , energy := "calm" }
  | "fuming" => some
      { description := "contained intensity and simmering energy"
      , colors := ["muted coral", "dusty red", "warm gray"]
      , hex_colors := ["#E8A0A0", "#C25A5A", "#A89F9F"]
      , shapes := "contained spirals with inward pressure"
      , energy := "intense" }
  | "freaked_out" => some
      { description := "scattered, anxious, and unsettled feeling"
      , colors := ["pale violet", "soft gray", "muted blue"]
      , hex_colors := ["#C8A0E8", "#B0B0B0", "#8FA8C8"]
      , shapes := "dispersed elements and irregular patterns"
      , energy := "intense" }
  | "mad_as_hell" => some
      { description := "heavy, dense, and pressured energy"
      , colors := ["deep mauve", "muted burgundy", "charcoal"]
      , hex_colors := ["#8B4570", "#722F37", "#36454F"]
      , shapes := "dense centers and heavy forms"
      , energy := "intense" }
  | "blah" => some
      { description := "flat, neutral, and unmotivated state"
      , colors := ["gray tones", "muted beige", "pale taupe"]
      , hex_colors := ["#B0C4D4", "#C4B8A8", "#B8AFA0"]
      , shapes := "horizontal layers and static forms"
      , energy := "calm" }
  | "down" => some
      { description := "low, weighted, and subdued feeling"
      , colors := ["cool gray-blue", "pale indigo", "soft navy"]
      , hex_colors := ["#A0B8D4", "#9FA8DA", "#6B7B8C"]
      , shapes := "downward curves and sinking shapes"
      , energy := "calm" }
  | "bored_stiff" => some
      { description := "empty, monotonous, and unstimulated feeling"
      , colors := ["neutral grays", "pale olive", "muted tan"]
      , hex_colors := ["#D4D0C4", "#C5C99B", "#C2B280"]
      , shapes := "regular, repetitive, sparse patterns"
      , energy := "calm" }
  | _ => none

/-- `VALID_EMOTIONS = set(EMOTION_PROFILES.keys())`, as an explicit list. -/
def VALID_EMOTIONS : List String :=
  ["super_happy", "pumped", "cozy", "chill", "content", "fuming",
   "freaked_out", "mad_as_hell", "blah", "down", "bored_stiff"]

/-- `VALID_CATEGORIES = {"good", "bad", "not_sure"}`. -/
def VALID_CATEGORIES : List String := ["good", "bad", "not_sure"]

/-- `FALLBACK_COLORS` from prompt_builder.py. -/
def FALLBACK_COLORS : List String := ["#FFD700", "#FF6B6B", "#4ECDC4", "#A78BFA"]

theorem emotion_profiles_valid :
    ∀ e, (EMOTION_PROFILES e).isSome → e ∈ VALID_EMOTIONS := by
  intro e h
  unfold EMOTION_PROFILES at h
  split at h <;> simp_all [VALID_EMOTIONS]

/-! ## get_dominant_colors (prompt_builder.py lines 241-268) -/

/-- The first hex color of an emotion's profile, when the profile exists and its
hex color list is non-empty (mirrors the two guards in the Python loop). -/
def firstHexColor (emotion_id : String) : Option String :=
  (EMOTION_PROFILES emotion_id).bind (fun p => p.hex_colors.head?)

/-- The padding loop of `get_dominant_colors`: for each fallback color, append it
when not already present, and stop as soon as the list has at least 4 entries
(the length check runs every iteration, after the conditional append). -/
def padWithFallback (colors : List String) : List String → List String
  | [] => colors
  | f :: fs =>
      let colors' := if f ∈ colors then colors else colors ++ [f]
      if 4 ≤ colors'.length then colors' else padWithFallback colors' fs

/-- `PromptBuilder.get_dominant_colors`. -/
def get_dominant_colors (selected_emotions : List String) : List String :=
  let colors := selected_emotions.filterMap firstHexColor
  let colors := if colors.length < 3 then padWithFallback colors FALLBACK_COLORS else colors
  colors.take 4

/-- A syntactically valid hex color: a hash sign followed by exactly six
hexadecimal digits. -/
def isValidHexColor (s : String) : Bool :=
  match s.toList with
  | c :: rest => c == '#' && rest.length == 6 && rest.all (fun d => d.isDigit || ('A' ≤ d && d ≤ 'F') || ('a' ≤ d && d ≤ 'f'))
  | [] => false

theorem padWithFallback_exists_suffix (colors fs : List String) :
    ∃ t, padWithFallback colors fs = colors ++ t ∧ ∀ x ∈ t, x ∈ fs := by
  induction fs generalizing colors with
  | nil => exact ⟨[], by simp [padWithFallback]⟩
  | cons f fs ih =>
    by_cases hmem : f ∈ colors
    · simp only [padWithFallback, if_pos hmem]
      split
      · exact ⟨[], by simp⟩
      · obtain ⟨t, ht, hall⟩ := ih colors
        exact ⟨t, ht, fun x hx => List.mem_cons_of_mem _ (hall x hx)⟩
    · simp only [padWithFallback, if_neg hmem]
      split
      · exact ⟨[f], rfl, by simp⟩
      · obtain ⟨t, ht, hall⟩ := ih (colors ++ [f])
        refine ⟨f :: t, by simpa using ht, ?_⟩
        intro x hx
        rcases List.mem_cons.mp hx with h | h
        · simp [h]
        · exact List.mem_cons_of_mem _ (hall x h)

theorem padWithFallback_four (colors : List String)
    (hlen : colors.length < 3)
    (hdisj : ∀ f ∈ FALLBACK_COLORS, f ∉ colors) :
    (padWithFallback colors FALLBACK_COLORS).length = 4 := by
  have h0 : "#FFD700" ∉ colors := hdisj _ (by simp [FALLBACK_COLORS])
  have h1 : "#FF6B6B" ∉ colors := hdisj _ (by simp [FALLBACK_COLORS])
  have h2 : "#4ECDC4" ∉ colors := hdisj _ (by simp [FALLBACK_COLORS])
  have m1 : "#FF6B6B" ∉ colors ++ ["#FFD700"] := by
    simp only [List.mem_append, List.mem_singleton]
    rintro (h | h)
    · exact h1 h
    · exact absurd h (by decide)
  have m2 : "#4ECDC4" ∉ colors ++ ["#FFD700"] ++ ["#FF6B6B"] := by
    simp only [List.append_assoc, List.mem_append, List.mem_cons, List.mem_singleton]
    rintro (h | h | h)
    · exact h2 h
    · exact absurd h (by decide)
    · simp_all
  show (padWithFallback colors ["#FFD700", "#FF6B6B", "#4ECDC4", "#A78BFA"]).length = 4
  rw [padWithFallback, if_neg h0]
  rcases (by omega : colors.length = 2 ∨ colors.length = 1 ∨ colors.length = 0) with h | h | h
  · rw [if_neg (by simp [h]), padWithFallback, if_neg m1, if_pos (by simp [h])]
    simp [h]
  · rw [if_neg (by simp [h]), padWithFallback, if_neg m1, if_neg (by simp [h]),
      padWithFallback, if_neg m2, if_pos (by simp [h])]
    simp [h]
  · rw [if_neg (by simp [h]), padWithFallback, if_neg m1, if_neg (by simp [h]),
      padWithFallback, if_neg m2, if_neg (by simp [h]), padWithFallback]
    have m3 : "#A78BFA" ∉ colors ++ ["#FFD700"] ++ ["#FF6B6B"] ++ ["#4ECDC4"] := by
      simp only [List.append_assoc, List.mem_append, List.mem_cons, List.mem_singleton]
      rintro (hx | hx | hx | hx)
      · exact hdisj _ (by simp [FALLBACK_COLORS]) hx
      · exact absurd hx (by decide)
      · simp_all
      · simp_all
    rw [if_neg m3, if_pos (by simp [h])]
    simp [h]

/-- Every emotion's first profile hex color is distinct from every fixed fallback
color, so the padding loop's skip-duplicates test never fires against
profile-derived entries. -/
theorem firstHex_not_fallback :
    ∀ e s, firstHexColor e = some s → s ∉ FALLBACK_COLORS := by
  intro e s h
  unfold firstHexColor EMOTION_PROFILES at h
  split at h <;> simp_all [FALLBACK_COLORS] <;> subst h <;> decide

theorem firstHex_valid :
    ∀ e s, firstHexColor e = some s → isValidHexColor s = true := by
  intro e s h
  unfold firstHexColor EMOTION_PROFILES at h
  split at h <;> simp_all <;> subst h <;> decide

theorem fallback_valid : ∀ s ∈ FALLBACK_COLORS, isValidHexColor s = true := by
  decide

/-- Claim C4: for every list of valid emotion identifiers, `get_dominant_colors`
returns between 3 and 4 syntactically valid hex color strings; the output starts
with the first hex color of each emotion's profile in emotion order (truncated
to 4), with the remainder drawn from the fixed ordered fallback palette; and for
`["super_happy"]` the first entry is that emotion's first profile hex color.
(The function is a pure function of its argument by construction in this
embedding, which mirrors the source's freedom from mutable or ambient state.) -/
theorem get_dominant_colors_spec :
    (∀ es : List String, (∀ e ∈ es, e ∈ VALID_EMOTIONS) →
      3 ≤ (get_dominant_colors es).length ∧
      (get_dominant_colors es).length ≤ 4 ∧
      (∀ c ∈ get_dominant_colors es, isValidHexColor c = true) ∧
      (∃ t, get_dominant_colors es = (es.filterMap firstHexColor).take 4 ++ t ∧
        ∀ x ∈ t, x ∈ FALLBACK_COLORS)) ∧
    (get_dominant_colors ["super_happy"]).head? = some "#FFE4A0" := by
  constructor
  · intro es _
    set colors := es.filterMap firstHexColor with hc
    have hdisj : ∀ f ∈ FALLBACK_COLORS, f ∉ colors := by
      intro f hf hmem
      obtain ⟨e, _, he⟩ := List.mem_filterMap.mp hmem
      exact firstHex_not_fallback e f he hf
    have hvalidc : ∀ c ∈ colors, isValidHexColor c = true := by
      intro c hmem
      obtain ⟨e, _, he⟩ := List.mem_filterMap.mp hmem
      exact firstHex_valid e c he
    by_cases hlt : colors.length < 3
    · have hout : get_dominant_colors es
          = (padWithFallback colors FALLBACK_COLORS).take 4 := by
        simp only [get_dominant_colors, ← hc, if_pos hlt]
      obtain ⟨t, hpad, htall⟩ := padWithFallback_exists_suffix colors FALLBACK_COLORS
      have hplen : (padWithFallback colors FALLBACK_COLORS).length = 4 :=
        padWithFallback_four colors hlt hdisj
      have hlen : (get_dominant_colors es).length = 4 := by
        rw [hout, List.length_take, hplen]
        omega
      refine ⟨by omega, by omega, ?_, ?_⟩
      · intro c hmemc
        have : c ∈ padWithFallback colors FALLBACK_COLORS := by
          rw [hout] at hmemc
          exact List.take_subset _ _ hmemc
        rw [hpad] at this
        rcases List.mem_append.mp this with h | h
        · exact hvalidc c h
        · exact fallback_valid c (htall c h)
      · refine ⟨t.take (4 - colors.length), ?_, fun x hx => htall x (List.take_subset _ _ hx)⟩
        have hctake : colors.take 4 = colors := List.take_of_length_le (by omega)
        rw [hout, hpad, List.take_append_eq_append_take, hctake]
    · have hout : get_dominant_colors es = colors.take 4 := by
        simp only [get_dominant_colors, ← hc, if_neg hlt]
      have hlen : (get_dominant_colors es).length = min 4 colors.length := by
        rw [hout, List.length_take]
      refine ⟨by omega, by omega, ?_, ⟨[], by simp [hout], by simp⟩⟩
      intro c hmemc
      rw [hout] at hmemc
      exact hvalidc c (List.take_subset _ _ hmemc)
  · decide

/-- Witness for claim C4's theorem at the concrete input `["super_happy"]`. -/
theorem get_dominant_colors_spec_witness :
    (∀ e ∈ ["super_happy"], e ∈ VALID_EMOTIONS) ∧
    3 ≤ (get_dominant_colors ["super_happy"]).length ∧
    (get_dominant_colors ["super_happy"]).length ≤ 4 :=
  ⟨by decide, (get_dominant_colors_spec.1 ["super_happy"] (by decide)).1,
    (get_dominant_colors_spec.1 ["super_happy"] (by decide)).2.1⟩

/-! ## Prompt assembly (prompt_builder.py)

Python's `sep.join(xs)` is modelled by `pyJoin`. Python `set` objects appear
only in `_get_color_palette`; a set's contents are the distinct strings added
to it, and its iteration order is some fixed enumeration of those contents, so
the embedding passes an enumeration function `ord` whose output is a
permutation of the deduplicated insertion sequence. Within one process two
identically built sets enumerate identically, so a fixed `ord` models a run. -/

def pyJoin (sep : String) : List String → String
  | [] => ""
  | [x] => x
  | x :: y :: ys => x ++ sep ++ pyJoin sep (y :: ys)

theorem pyJoin_cons_ne_nil (sep a : String) (rest : List String) (h : rest ≠ []) :
    pyJoin sep (a :: rest) = a ++ sep ++ pyJoin sep rest := by
  cases rest with
  | nil => exact absurd rfl h
  | cons y ys => rfl

theorem pyJoin_space_last_ne_empty (l : List String) (d : String) (hd : d ≠ "") :
    pyJoin " " (l ++ [d]) ≠ "" := by
  cases l with
  | nil => simpa [pyJoin] using hd
  | cons x xs =>
    rw [List.cons_append, pyJoin_cons_ne_nil _ _ _ (by simp)]
    intro hcontra
    have : (x ++ " " ++ pyJoin " " (xs ++ [d])).length = 0 := by rw [hcontra]; rfl
    simp [String.length_append] at this
    exact absurd this.1.2 (by decide)

/-- `FEELING_BASE_STYLE` (triple-quoted literal in the source; the content
starts and ends with a newline). -/
def FEELING_BASE_STYLE : String :=
  "\nAbstract art visualization with these characteristics:\n- Abstract style with no recognizable objects or people\n- Soft, muted colors with low saturation (pastel tones)\n- Symmetrical or balanced composition\n- Smooth gradients and flowing shapes\n- Absolutely NO text, letters, words, or numbers\n"

/-- The `category_desc` dictionary lookup with default `""` used by
`_build_emotion_description`. -/
def categoryDesc (feeling_category : String) : String :=
  if feeling_category = "good" then "overall positive emotional state"
  else if feeling_category = "bad" then "challenging emotional state"
  else if feeling_category = "not_sure" then "mixed or uncertain emotional state"
  else ""

/-- `PromptBuilder._build_emotion_description`. -/
def _build_emotion_description (selected_emotions : List String) (feeling_category : String) : String :=
  let descriptions := selected_emotions.filterMap (fun e => (EMOTION_PROFILES e).map (·.description))
  let descriptions := descriptions ++ [categoryDesc feeling_category]
  if descriptions = [] then "general emotional state" else pyJoin " " descriptions

/-- The category-conditioned default palettes of `_get_color_palette`. -/
def categoryPalette (feeling_category : String) : List String :=
  if feeling_category = "good" then ["soft warm tones", "light pastels", "gentle yellows"]
  else if feeling_category = "bad" then ["muted cool tones", "soft grays", "pale blues"]
  else ["neutral pastels", "soft balanced tones"]

/-- The sequence of color names inserted into the `colors` set, in insertion
order: each selected emotion's profile colors. -/
def profileColors (selected_emotions : List String) : List String :=
  (selected_emotions.filterMap EMOTION_PROFILES).flatMap (·.colors)

/-- `PromptBuilder._get_color_palette`, with the process's set-enumeration
function `ord` made explicit (see the section comment). -/
def _get_color_palette (ord : List String → List String)
    (selected_emotions : List String) (feeling_category : String) : String :=
  let colorsL := profileColors selected_emotions
  let elems := if colorsL = [] then ord (categoryPalette feeling_category) else ord colorsL
  "Use " ++ pyJoin ", " (elems.take 5)

/-- `PromptBuilder._get_shape_guidance`. -/
def _get_shape_guidance (selected_emotions : List String) : String :=
  let shapes := selected_emotions.filterMap (fun e => (EMOTION_PROFILES e).map (·.shapes))
  if shapes = [] then "" else "Incorporate " ++ pyJoin " and " (shapes.take 3)

/-- `PromptBuilder.build_feeling_prompt`. -/
def build_feeling_prompt (ord : List String → List String)
    (feeling_category : String) (selected_emotions : List String) : String :=
  let parts := [FEELING_BASE_STYLE]
  let parts := parts ++ ["\nMOOD TO VISUALIZE:\n" ++ _build_emotion_description selected_emotions feeling_category]
  let parts := parts ++ ["\nCOLOR PALETTE:\n" ++ _get_color_palette ord selected_emotions feeling_category]
  let shapes := _get_shape_guidance selected_emotions
  let parts := if shapes ≠ "" then parts ++ ["\nSHAPE GUIDANCE:\n" ++ shapes] else parts
  let parts := parts ++ ["\nCreate a calming, aesthetically pleasing square image."]
  pyJoin "\n" parts

theorem valid_emotion_profile (e : String) (he : e ∈ VALID_EMOTIONS) :
    ∃ p, EMOTION_PROFILES e = some p ∧ p.colors ≠ [] ∧ p.description ≠ "" ∧ p.shapes ≠ "" := by
  fin_cases he <;> exact ⟨_, rfl, by decide, by decide, by decide⟩

theorem categoryDesc_ne_empty (cat : String) (h : cat ∈ VALID_CATEGORIES) :
    categoryDesc cat ≠ "" := by
  fin_cases h <;> decide

theorem categoryPalette_ne_nil (cat : String) : categoryPalette cat ≠ [] := by
  unfold categoryPalette
  split_ifs <;> simp

theorem profileColors_ne_nil (e : String) (es : List String) (he : e ∈ VALID_EMOTIONS) :
    profileColors (e :: es) ≠ [] := by
  obtain ⟨p, hp, hcol, -, -⟩ := valid_emotion_profile e he
  simp only [profileColors, List.filterMap_cons, hp, List.flatMap_cons]
  simp [hcol]

theorem str_length_zero (s : String) (h : s.length = 0) : s = "" := by
  cases s with
  | mk data =>
    have hnil : data = [] := List.eq_nil_of_length_eq_zero h
    subst hnil
    rfl

theorem str_append_ne_empty_left (a b : String) (ha : a ≠ "") : a ++ b ≠ "" := by
  intro h
  apply ha
  apply str_length_zero
  have : (a ++ b).length = 0 := by rw [h]; rfl
  rw [String.length_append] at this
  omega

theorem ord_take_ne_nil (ord : List String → List String)
    (hord : ∀ l, (ord l).Perm l.dedup) (l : List String) (hl : l ≠ []) (n : Nat)
    (hn : 0 < n) : (ord l).take n ≠ [] := by
  have hlen : (ord l).length = l.dedup.length := (hord l).length_eq
  have hpos : 0 < l.dedup.length := by
    by_contra hcon
    push_neg at hcon
    have hdnil : l.dedup = [] := List.eq_nil_of_length_eq_zero (by omega)
    rw [List.dedup_eq_nil] at hdnil
    exact hl hdnil
  have : 0 < ((ord l).take n).length := by
    rw [List.length_take]
    omega
  exact List.ne_nil_of_length_pos this

/-- Claim C8: for all valid (category, emotions) pairs, `build_feeling_prompt`
yields the fixed abstract-art style preamble followed by a non-empty mood
clause and a color-palette clause listing at most 5 (and at least one) color
names; and whenever the selected emotions yield no profile colors, the palette
clause's names come from the category-conditioned neutral palettes.
(Determinism for identical inputs is definitional in this embedding: the
builder is a function of the category, the emotions and the process's fixed
set-enumeration `ord`, with no other state.) -/
theorem build_feeling_prompt_spec :
    ∀ (ord : List String → List String), (∀ l, (ord l).Perm l.dedup) →
    ∀ cat es, cat ∈ VALID_CATEGORIES →
      (es ≠ [] → (∀ e ∈ es, e ∈ VALID_EMOTIONS) →
        ∃ names rest,
          build_feeling_prompt ord cat es =
            FEELING_BASE_STYLE ++ "\n" ++
            ("\nMOOD TO VISUALIZE:\n" ++ _build_emotion_description es cat) ++ "\n" ++
            ("\nCOLOR PALETTE:\n" ++ ("Use " ++ pyJoin ", " names)) ++ rest ∧
          _build_emotion_description es cat ≠ "" ∧
          names ≠ [] ∧ names.length ≤ 5) ∧
      (∀ es₂, profileColors es₂ = [] →
        ∃ names, _get_color_palette ord es₂ cat = "Use " ++ pyJoin ", " names ∧
          names ≠ [] ∧ names.length ≤ 5 ∧ ∀ x ∈ names, x ∈ categoryPalette cat) := by
  intro ord hord cat es hcat
  constructor
  · intro hne hvalid
    obtain ⟨e, es', rfl⟩ : ∃ e es', es = e :: es' := by
      cases es with
      | nil => exact absurd rfl hne
      | cons a l => exact ⟨a, l, rfl⟩
    have hcolors : profileColors (e :: es') ≠ [] :=
      profileColors_ne_nil e es' (hvalid e (by simp))
    have hpal : _get_color_palette ord (e :: es') cat
        = "Use " ++ pyJoin ", " ((ord (profileColors (e :: es'))).take 5) := by
      unfold _get_color_palette
      simp only [if_neg hcolors]
    have hshape : _get_shape_guidance (e :: es') ≠ "" := by
      obtain ⟨p, hp, -, -, -⟩ := valid_emotion_profile e (hvalid e (by simp))
      have hfm : (e :: es').filterMap (fun x => (EMOTION_PROFILES x).map (·.shapes))
          = p.shapes :: es'.filterMap (fun x => (EMOTION_PROFILES x).map (·.shapes)) := by
        simp [List.filterMap_cons, hp]
      unfold _get_shape_guidance
      rw [hfm, if_neg (by simp)]
      exact str_append_ne_empty_left _ _ (by decide)
    refine ⟨(ord (profileColors (e :: es'))).take 5,
      "\n" ++ ("\nSHAPE GUIDANCE:\n" ++ _get_shape_guidance (e :: es')) ++ "\n" ++
        "\nCreate a calming, aesthetically pleasing square image.", ?_, ?_, ?_, ?_⟩
    · simp only [build_feeling_prompt]
      rw [if_pos hshape]
      simp only [List.cons_append, List.nil_append, pyJoin]
      rw [hpal]
      simp [String.append_assoc]
    · unfold _build_emotion_description
      rw [if_neg (by simp)]
      exact pyJoin_space_last_ne_empty _ _ (categoryDesc_ne_empty cat hcat)
    · exact ord_take_ne_nil ord hord _ hcolors 5 (by omega)
    · exact List.length_take_le _ _
  · intro es₂ hempty
    refine ⟨(ord (categoryPalette cat)).take 5, ?_, ?_, List.length_take_le _ _, ?_⟩
    · unfold _get_color_palette
      simp [hempty]
    · exact ord_take_ne_nil ord hord _ (categoryPalette_ne_nil cat) 5 (by omega)
    · intro x hx
      have hx' : x ∈ ord (categoryPalette cat) := List.take_subset _ _ hx
      have := (hord (categoryPalette cat)).mem_iff.mp hx'
      exact List.dedup_subset _ this

/-- Witness for claim C8's theorem at a concrete enumeration (the identity on
already-deduplicated contents) and a concrete input. -/
theorem build_feeling_prompt_spec_witness :
    ("good" ∈ VALID_CATEGORIES) ∧
    ∃ names rest,
      build_feeling_prompt List.dedup "good" ["super_happy"] =
        FEELING_BASE_STYLE ++ "\n" ++
        ("\nMOOD TO VISUALIZE:\n" ++ _build_emotion_description ["super_happy"] "good") ++ "\n" ++
        ("\nCOLOR PALETTE:\n" ++ ("Use " ++ pyJoin ", " names)) ++ rest ∧
      _build_emotion_description ["super_happy"] "good" ≠ "" ∧
      names ≠ [] ∧ names.length ≤ 5 :=
  ⟨by decide,
    (build_feeling_prompt_spec List.dedup (fun l => List.Perm.refl _)
      "good" ["super_happy"] (by decide)).1 (by decide) (by decide)⟩

/-! ## Story analyzer (story_analyzer.py)

JSON values decoded by `json.loads` are modelled by `Json`; a decoded JSON
object is an ordered association list of fields (Python dicts preserve
insertion order, and `json.loads` never produces duplicate keys). The regex
span extraction on the raw model text is modelled by `extractBraceSpan`;
`json.loads` itself is the Python standard library and stays external, so the
analyzer is modelled over the outcome of that decoding step (`ParseInput`). -/

inductive Json where
  | null
  | bool (b : Bool)
  | num (n : Int)
  | str (s : String)
  | arr (elems : List Json)
  | obj (fields : List (String × Json))

/-- Python `d[k] = v` on a dict: replace in place when the key exists,
otherwise append (insertion order is preserved). -/
def dictSet (d : List (String × Json)) (k : String) (v : Json) : List (String × Json) :=
  if (d.lookup k).isSome then d.map (fun p => if p.1 = k then (k, v) else p)
  else d ++ [(k, v)]

/-- Python `if k not in d: d[k] = v`. -/
def dictSetDefault (d : List (String × Json)) (k : String) (v : Json) : List (String × Json) :=
  if (d.lookup k).isSome then d else d ++ [(k, v)]

/-- One factor entry of the validation loop in `_parse_response`: kept only
when it is a dict containing the key `factor`; the kept entry is rebuilt from
`factor.get("factor", "")` and `factor.get("insight", "")`. -/
def validateFactor : Json → Option Json
  | .obj fields =>
      if (fields.lookup "factor").isSome then
        some (.obj [("factor", (fields.lookup "factor").getD (.str "")),
                    ("insight", (fields.lookup "insight").getD (.str ""))])
      else none
  | _ => none

/-- Python `for factor in value`: lists iterate their elements, strings their
characters, dicts their keys; other JSON values raise `TypeError`, which is
not caught inside `_parse_response` and propagates to `analyze_story`. -/
def iterFactors : Json → Except Unit (List Json)
  | .arr xs => .ok xs
  | .str s => .ok (s.toList.map (fun c => .str (String.mk [c])))
  | .obj fields => .ok (fields.map (fun p => .str p.1))
  | _ => .error ()

/-- The `re.search` of pattern l-brace [\s\S]* r-brace is greedy: when the raw
text has an opening brace with some closing brace after it, the match runs
from the FIRST opening brace to the LAST closing brace of the whole text. -/
def extractBraceSpan (s : String) : Option String :=
  let cs := s.toList
  match cs.findIdx? (· = '\x7b') with
  | none => none
  | some i =>
      match cs.reverse.findIdx? (· = '\x7d') with
      | none => none
      | some jrev =>
          let j := cs.length - 1 - jrev
          if i < j then some (String.mk ((cs.drop i).take (j - i + 1))) else none

/-- Outcome of span extraction plus `json.loads` on the model's raw text. -/
inductive ParseInput where
  | noMatch
  | badJson
  | decoded (fields : List (String × Json))

/-- The fixed result `_parse_response` returns when no span is found or the
span fails to decode. -/
def parseBasicFallback : List (String × Json) :=
  [("language", .str "en"),
   ("central_stressor", .str "Personal Situation"),
   ("factors", .arr [.obj [("factor", .str "Emotional Response"),
      ("insight", .str "Our feelings often reflect deeper needs and concerns that deserve attention.")]])]

/-- `StoryAnalyzer._parse_response` after the extraction/decoding stage;
`.error` models an uncaught exception escaping to `analyze_story`. -/
def parse_response : ParseInput → Except Unit (List (String × Json))
  | .noMatch => .ok parseBasicFallback
  | .badJson => .ok parseBasicFallback
  | .decoded fields =>
      let r := dictSetDefault fields "central_stressor" (.str "Unidentified situation")
      let r := dictSetDefault r "factors" (.arr [])
      let r := dictSetDefault r "language" (.str "en")
      match iterFactors ((r.lookup "factors").getD (.arr [])) with
      | .error _ => .error ()
      | .ok fs => .ok (dictSet r "factors" (.arr ((fs.filterMap validateFactor).take 5)))

/-- The language heuristic of `_generate_fallback_analysis`:
`re.search` for a character in the CJK unified ideographs range 4E00-9FFF. -/
def hasChineseChar (s : String) : Bool :=
  s.toList.any (fun c => 0x4e00 ≤ c.toNat && c.toNat ≤ 0x9fff)

/-- The static English emotion table `emotion_to_factor`. -/
def emotion_to_factor : String → Option (String × String)
  | "super_happy" => some ("Positive Achievement", "Our brains are wired to seek accomplishment; this feeling reflects successful goal pursuit and social validation.")
  | "pumped" => some ("Excitement", "Heightened arousal prepares us for action; we often feel most alive when anticipating positive outcomes.")
  | "cozy" => some ("Comfort", "The need for safety is fundamental; feeling secure allows our nervous system to relax and restore.")
  | "chill" => some ("Relaxation", "A calm state signals that immediate threats are absent, allowing mental resources to be redirected toward reflection.")
  | "content" => some ("Satisfaction", "Contentment arises when our current reality aligns with our expectations; we feel 'enough' in this moment.")
  | "fuming" => some ("Frustration", "Anger often masks underlying feelings of powerlessness; it signals that something important to us feels threatened.")
  | "freaked_out" => some ("Anxiety", "We tend to overestimate threats and underestimate our ability to cope; uncertainty triggers protective vigilance.")
  | "mad_as_hell" => some ("Intense Anger", "Strong anger often indicates a perceived violation of fairness or boundaries that matter deeply to us.")
  | "blah" => some ("Apathy", "Lack of motivation can signal emotional exhaustion or disconnection from activities that once held meaning.")
  | "down" => some ("Sadness", "Sadness often reflects loss or unmet expectations; it invites us to slow down and process what matters.")
  | "bored_stiff" => some ("Monotony", "Boredom signals a gap between our need for stimulation and our current environment; it can prompt growth-seeking.")
  | _ => none

/-- The static Chinese emotion table `emotion_to_factor_zh`. -/
def emotion_to_factor_zh : String → Option (String × String)
  | "super_happy" => some ("积极成就", "我们的大脑天生追求成就感；这种感觉反映了成功的目标追求和社会认可。")
  | "pumped" => some ("兴奋", "高度的兴奋让我们准备好行动；当我们期待积极的结果时，往往感觉最有活力。")
  | "cozy" => some ("舒适", "对安全感的需求是人类的基本需求；感到安全让我们的神经系统得以放松和恢复。")
  | "chill" => some ("放松", "平静的状态表明眼前没有威胁，让心理资源可以转向反思。")
  | "content" => some ("满足", "当现实与期望一致时，满足感就会产生；我们在这一刻感到'足够'。")
  | "fuming" => some ("挫折感", "愤怒往往掩盖了潜在的无力感；它表明对我们重要的东西感到受威胁。")
  | "freaked_out" => some ("焦虑", "我们往往会高估威胁，低估自己的应对能力；不确定性会触发保护性警觉。")
  | "mad_as_hell" => some ("强烈愤怒", "强烈的愤怒通常表明我们认为公平或重要的界限被侵犯了。")
  | "blah" => some ("冷漠", "缺乏动力可能表明情感疲惫或与曾经有意义的活动脱节。")
  | "down" => some ("悲伤", "悲伤往往反映失去或未满足的期望；它邀请我们放慢脚步，处理重要的事情。")
  | "bored_stiff" => some ("单调", "无聊表明我们对刺激的需求与当前环境之间存在差距；它可以促使我们寻求成长。")
  | _ => none

/-- The factor-building loop of `_generate_fallback_analysis`: at most the
first 4 selected emotions, each contributing a factor when present in the
active static table, in the caller's order. -/
def fallbackFactorList (fm : String → Option (String × String))
    (selected_emotions : List String) : List Json :=
  (selected_emotions.take 4).filterMap
    (fun e => (fm e).map
      (fun nt => Json.obj [("factor", .str nt.1), ("insight", .str nt.2)]))

/-- The `factors if factors else [...]` step of `_generate_fallback_analysis`:
the table-derived factors, or the single generic factor when none matched. -/
def finalFallbackFactors (fm : String → Option (String × String)) (generic : Json)
    (selected_emotions : List String) : List Json :=
  let factors := fallbackFactorList fm selected_emotions
  if factors.isEmpty then [generic] else factors

/-- `StoryAnalyzer._generate_fallback_analysis`. -/
def generate_fallback_analysis (story_text : String) (selected_emotions : List String) :
    List (String × Json) :=
  let language := if hasChineseChar story_text then "zh" else "en"
  let factorMap := if language = "zh" then emotion_to_factor_zh else emotion_to_factor
  let central := if language = "zh" then "当前情况" else "Current Situation"
  let generic := Json.obj
    [("factor", .str (if language = "zh" then "情绪反应" else "Emotional Response")),
     ("insight", .str (if language = "zh" then "我们的感受往往反映了更深层的需求和关注点，值得我们关注。"
        else "Our feelings often reflect deeper needs and concerns that deserve attention."))]
  [("language", .str language), ("central_stressor", .str central),
   ("factors", .arr (finalFallbackFactors factorMap generic selected_emotions))]

/-- The interaction with the external text model in `analyze_story`: either
`generate_content` (or prompt construction) raises, or it returns raw text,
represented by that text's extraction/decoding outcome. -/
inductive ModelCall where
  | failure
  | response (parsed : ParseInput)

/-- `StoryAnalyzer.analyze_story`: any exception inside the try block (model
call failure or an uncaught parse error) falls back to
`_generate_fallback_analysis`. -/
def analyze_story (call : ModelCall) (story_text : String) (selected_emotions : List String) :
    List (String × Json) :=
  match call with
  | .failure => generate_fallback_analysis story_text selected_emotions
  | .response pin =>
      match parse_response pin with
      | .error _ => generate_fallback_analysis story_text selected_emotions
      | .ok r => r

/-- The factor list of an analysis result dict. -/
def resultFactors (r : List (String × Json)) : List Json :=
  match r.lookup "factors" with
  | some (.arr xs) => xs
  | _ => []

/-! ### Association-list lemmas for the dict operations -/

theorem lookup_cons_hit (k : String) (v : Json) (ps : List (String × Json)) :
    List.lookup k ((k, v) :: ps) = some v := by
  simp [List.lookup]

theorem lookup_cons_miss (k a : String) (v : Json) (ps : List (String × Json))
    (h : k ≠ a) : List.lookup k ((a, v) :: ps) = List.lookup k ps := by
  have hb : (k == a) = false := beq_eq_false_iff_ne.mpr h
  simp [List.lookup, hb]

theorem lookup_append (d l : List (String × Json)) (k : String) :
    (d ++ l).lookup k = match d.lookup k with
      | some v => some v
      | none => l.lookup k := by
  induction d with
  | nil => simp [List.lookup]
  | cons p ps ih =>
    obtain ⟨a, v⟩ := p
    by_cases hk : k = a
    · subst hk
      simp only [List.cons_append, lookup_cons_hit]
    · simp only [List.cons_append, lookup_cons_miss _ _ _ _ hk]
      exact ih

theorem lookup_replace_self (d : List (String × Json)) (k : String) (v : Json)
    (h : (d.lookup k).isSome) :
    (d.map (fun p => if p.1 = k then (k, v) else p)).lookup k = some v := by
  induction d with
  | nil => simp [List.lookup] at h
  | cons p ps ih =>
    obtain ⟨a, w⟩ := p
    rw [List.map_cons]
    by_cases hk : a = k
    · rw [if_pos hk]
      subst hk
      rw [lookup_cons_hit]
    · have hk' : k ≠ a := fun hcontra => hk hcontra.symm
      have h' : (ps.lookup k).isSome := by
        rw [lookup_cons_miss _ _ _ _ hk'] at h
        exact h
      rw [if_neg hk, lookup_cons_miss _ _ _ _ hk']
      exact ih h'

theorem lookup_replace_ne (d : List (String × Json)) (k k' : String) (v : Json)
    (hne : k ≠ k') :
    (d.map (fun p => if p.1 = k' then (k', v) else p)).lookup k = d.lookup k := by
  induction d with
  | nil => simp
  | cons p ps ih =>
    obtain ⟨a, w⟩ := p
    rw [List.map_cons]
    by_cases hk : a = k'
    · rw [if_pos hk]
      have hka : k ≠ a := fun hcontra => hne (hcontra.trans hk)
      rw [lookup_cons_miss _ _ _ _ hne, lookup_cons_miss _ _ _ _ hka]
      exact ih
    · rw [if_neg hk]
      by_cases hka : k = a
      · rw [hka, lookup_cons_hit, lookup_cons_hit]
      · rw [lookup_cons_miss _ _ _ _ hka, lookup_cons_miss _ _ _ _ hka]
        exact ih

theorem lookup_dictSet_self (d : List (String × Json)) (k : String) (v : Json) :
    (dictSet d k v).lookup k = some v := by
  unfold dictSet
  split
  · exact lookup_replace_self d k v (by assumption)
  · rename_i h
    rw [lookup_append]
    have : d.lookup k = none := by
      cases hd : d.lookup k with
      | none => rfl
      | some w => rw [hd] at h; simp at h
    rw [this]
    simp [List.lookup]

theorem lookup_dictSet_ne (d : List (String × Json)) (k k' : String) (v : Json)
    (hne : k ≠ k') : (dictSet d k' v).lookup k = d.lookup k := by
  unfold dictSet
  split
  · exact lookup_replace_ne d k k' v hne
  · rw [lookup_append]
    cases hd : d.lookup k with
    | none =>
        have hb : (k == k') = false := beq_eq_false_iff_ne.mpr hne
        simp [List.lookup, hb]
    | some w => rfl

theorem lookup_dictSetDefault_self (d : List (String × Json)) (k : String) (v : Json) :
    (dictSetDefault d k v).lookup k = some ((d.lookup k).getD v) := by
  unfold dictSetDefault
  split
  · rename_i h
    cases hd : d.lookup k with
    | none => rw [hd] at h; simp at h
    | some w => simp [hd]
  · rename_i h
    rw [lookup_append]
    cases hd : d.lookup k with
    | none => simp [List.lookup]
    | some w => rw [hd] at h; simp at h

theorem lookup_dictSetDefault_ne (d : List (String × Json)) (k k' : String) (v : Json)
    (hne : k ≠ k') : (dictSetDefault d k' v).lookup k = d.lookup k := by
  unfold dictSetDefault
  split
  · rfl
  · rw [lookup_append]
    cases hd : d.lookup k with
    | none =>
        have hb : (k == k') = false := beq_eq_false_iff_ne.mpr hne
        simp [List.lookup, hb]
    | some w => rfl

theorem resultFactors_dictSet (r : List (String × Json)) (l : List Json) :
    resultFactors (dictSet r "factors" (.arr l)) = l := by
  unfold resultFactors
  rw [lookup_dictSet_self]

/-! ### The fallback analysis (claims C6, C3) -/

theorem resultFactors_triple (language central : String) (factors : List Json) :
    resultFactors [("language", .str language), ("central_stressor", .str central),
      ("factors", .arr factors)] = factors := by
  unfold resultFactors
  rw [lookup_cons_miss _ _ _ _ (by decide), lookup_cons_miss _ _ _ _ (by decide),
    lookup_cons_hit]

theorem emotion_to_factor_label_ne (e : String) (p : String × String)
    (h : emotion_to_factor e = some p) : p.1 ≠ "" := by
  unfold emotion_to_factor at h
  split at h <;> simp_all <;> subst h <;> decide

theorem emotion_to_factor_zh_label_ne (e : String) (p : String × String)
    (h : emotion_to_factor_zh e = some p) : p.1 ≠ "" := by
  unfold emotion_to_factor_zh at h
  split at h <;> simp_all <;> subst h <;> decide

theorem fallbackFactorList_length_le (fm : String → Option (String × String))
    (es : List String) : (fallbackFactorList fm es).length ≤ 4 := by
  calc (fallbackFactorList fm es).length
      ≤ (es.take 4).length := List.length_filterMap_le _ _
    _ ≤ 4 := List.length_take_le _ _

theorem fallbackFactorList_shape (fm : String → Option (String × String))
    (hlabel : ∀ e p, fm e = some p → p.1 ≠ "") (es : List String) :
    ∀ f ∈ fallbackFactorList fm es,
      ∃ name insight, f = Json.obj [("factor", .str name), ("insight", .str insight)] ∧
        name ≠ "" := by
  intro f hf
  obtain ⟨e, -, he⟩ := List.mem_filterMap.mp hf
  cases hfm : fm e with
  | none => rw [hfm] at he; simp at he
  | some p =>
      rw [hfm] at he
      simp only [Option.map_some', Option.some.injEq] at he
      exact ⟨p.1, p.2, he.symm, hlabel e p hfm⟩

theorem fallbackFactorList_all_none (fm : String → Option (String × String))
    (es : List String) (h : ∀ e ∈ es, fm e = none) :
    fallbackFactorList fm es = [] := by
  unfold fallbackFactorList
  apply List.filterMap_eq_nil.mpr
  intro e he
  rw [h e (List.take_subset _ _ he)]
  rfl

theorem finalFallback_core (fm : String → Option (String × String))
    (hlabel : ∀ e p, fm e = some p → p.1 ≠ "")
    (gname gtext : String) (hg : gname ≠ "") (es : List String) :
    1 ≤ (finalFallbackFactors fm (Json.obj [("factor", .str gname), ("insight", .str gtext)]) es).length ∧
    (finalFallbackFactors fm (Json.obj [("factor", .str gname), ("insight", .str gtext)]) es).length ≤ 4 ∧
    (∀ f ∈ finalFallbackFactors fm (Json.obj [("factor", .str gname), ("insight", .str gtext)]) es,
      ∃ name insight, f = Json.obj [("factor", .str name), ("insight", .str insight)] ∧ name ≠ "") ∧
    (fallbackFactorList fm es ≠ [] →
      finalFallbackFactors fm (Json.obj [("factor", .str gname), ("insight", .str gtext)]) es
        = fallbackFactorList fm es) ∧
    ((∀ e ∈ es, fm e = none) →
      (finalFallbackFactors fm (Json.obj [("factor", .str gname), ("insight", .str gtext)]) es).length = 1) := by
  unfold finalFallbackFactors
  simp only
  by_cases hemp : (fallbackFactorList fm es).isEmpty
  · rw [if_pos hemp]
    refine ⟨by simp, by simp, ?_, ?_, fun _ => by simp⟩
    · intro f hf
      rcases List.mem_singleton.mp hf with rfl
      exact ⟨gname, gtext, rfl, hg⟩
    · intro hne
      exact absurd (List.isEmpty_iff.mp hemp) hne
  · rw [if_neg hemp]
    have hne : fallbackFactorList fm es ≠ [] := by
      intro hnil
      exact hemp (by simp [hnil])
    refine ⟨?_, fallbackFactorList_length_le fm es, fallbackFactorList_shape fm hlabel es,
      fun _ => rfl, ?_⟩
    · have := List.length_pos.mpr hne
      omega
    · intro hall
      exact absurd (fallbackFactorList_all_none fm es hall) hne

/-- Claim C6: the fallback analysis never fails; its detected language is
`zh` exactly when the narrative contains a CJK-script character and `en`
otherwise; it emits between 1 and 4 factors with non-empty labels, taken from
the static per-language table in the caller's emotion order; and when none of
the supplied emotions exist in the table it emits exactly one generic factor. -/
theorem generate_fallback_analysis_spec :
    ∀ story es, es ≠ [] →
      ((generate_fallback_analysis story es).lookup "language"
          = some (.str (if hasChineseChar story then "zh" else "en"))) ∧
      1 ≤ (resultFactors (generate_fallback_analysis story es)).length ∧
      (resultFactors (generate_fallback_analysis story es)).length ≤ 4 ∧
      (∀ f ∈ resultFactors (generate_fallback_analysis story es),
        ∃ name insight, f = Json.obj [("factor", .str name), ("insight", .str insight)] ∧
          name ≠ "") ∧
      (fallbackFactorList (if hasChineseChar story then emotion_to_factor_zh else emotion_to_factor) es ≠ [] →
        resultFactors (generate_fallback_analysis story es)
          = fallbackFactorList (if hasChineseChar story then emotion_to_factor_zh else emotion_to_factor) es) ∧
      ((∀ e ∈ es, (if hasChineseChar story then emotion_to_factor_zh else emotion_to_factor) e = none) →
        (resultFactors (generate_fallback_analysis story es)).length = 1) := by
  intro story es _
  cases hzh : hasChineseChar story
  · have hfl : resultFactors (generate_fallback_analysis story es)
        = finalFallbackFactors emotion_to_factor
            (Json.obj [("factor", .str "Emotional Response"),
              ("insight", .str "Our feelings often reflect deeper needs and concerns that deserve attention.")]) es := by
      unfold generate_fallback_analysis
      rw [hzh]
      simp only [Bool.false_eq_true, if_false]
      rw [resultFactors_triple]
      simp
    have hlang : (generate_fallback_analysis story es).lookup "language"
        = some (.str "en") := by
      unfold generate_fallback_analysis
      rw [hzh]
      simp only [Bool.false_eq_true, if_false]
      rw [lookup_cons_hit]
    have hc := finalFallback_core emotion_to_factor emotion_to_factor_label_ne
      "Emotional Response"
      "Our feelings often reflect deeper needs and concerns that deserve attention."
      (by decide) es
    simp only [Bool.false_eq_true, if_false]
    exact ⟨hlang, by rw [hfl]; exact hc.1, by rw [hfl]; exact hc.2.1,
      by rw [hfl]; exact hc.2.2.1, fun h => by rw [hfl]; exact hc.2.2.2.1 h,
      fun h => by rw [hfl]; exact hc.2.2.2.2 h⟩
  · have hfl : resultFactors (generate_fallback_analysis story es)
        = finalFallbackFactors emotion_to_factor_zh
            (Json.obj [("factor", .str "情绪反应"),
              ("insight", .str "我们的感受往往反映了更深层的需求和关注点，值得我们关注。")]) es := by
      unfold generate_fallback_analysis
      rw [hzh]
      simp only [if_true]
      rw [resultFactors_triple]
    have hlang : (generate_fallback_analysis story es).lookup "language"
        = some (.str "zh") := by
      unfold generate_fallback_analysis
      rw [hzh]
      simp only [if_true]
      rw [lookup_cons_hit]
    have hc := finalFallback_core emotion_to_factor_zh emotion_to_factor_zh_label_ne
      "情绪反应"
      "我们的感受往往反映了更深层的需求和关注点，值得我们关注。"
      (by decide) es
    simp only [if_true]
    exact ⟨hlang, by rw [hfl]; exact hc.1, by rw [hfl]; exact hc.2.1,
      by rw [hfl]; exact hc.2.2.1, fun h => by rw [hfl]; exact hc.2.2.2.1 h,
      fun h => by rw [hfl]; exact hc.2.2.2.2 h⟩

/-- Witness for claim C6's theorem: a concrete Chinese narrative with a known
emotion, run through the fallback analysis. -/
theorem generate_fallback_analysis_spec_witness :
    ((["down"] : List String) ≠ []) ∧
    ((generate_fallback_analysis "我今天考试没考好，感觉非常难过和失望。" ["down"]).lookup "language"
        = some (.str (if hasChineseChar "我今天考试没考好，感觉非常难过和失望。" then "zh" else "en"))) ∧
    1 ≤ (resultFactors (generate_fallback_analysis "我今天考试没考好，感觉非常难过和失望。" ["down"])).length :=
  ⟨by decide,
    (generate_fallback_analysis_spec "我今天考试没考好，感觉非常难过和失望。" ["down"] (by decide)).1,
    (generate_fallback_analysis_spec "我今天考试没考好，感觉非常难过和失望。" ["down"] (by decide)).2.1⟩

/-! ### Parse and analyze theorems (claims C3, C7) -/

theorem resultFactors_basicFallback : (resultFactors parseBasicFallback).length = 1 := rfl

theorem fallback_factor_bounds (story : String) (es : List String) :
    1 ≤ (resultFactors (generate_fallback_analysis story es)).length ∧
    (resultFactors (generate_fallback_analysis story es)).length ≤ 4 := by
  cases hzh : hasChineseChar story
  · have hfl : resultFactors (generate_fallback_analysis story es)
        = finalFallbackFactors emotion_to_factor
            (Json.obj [("factor", .str "Emotional Response"),
              ("insight", .str "Our feelings often reflect deeper needs and concerns that deserve attention.")]) es := by
      unfold generate_fallback_analysis
      rw [hzh]
      simp only [Bool.false_eq_true, if_false]
      rw [resultFactors_triple]
      simp
    have hc := finalFallback_core emotion_to_factor emotion_to_factor_label_ne
      "Emotional Response"
      "Our feelings often reflect deeper needs and concerns that deserve attention."
      (by decide) es
    exact ⟨by rw [hfl]; exact hc.1, by rw [hfl]; exact hc.2.1⟩
  · have hfl : resultFactors (generate_fallback_analysis story es)
        = finalFallbackFactors emotion_to_factor_zh
            (Json.obj [("factor", .str "情绪反应"),
              ("insight", .str "我们的感受往往反映了更深层的需求和关注点，值得我们关注。")]) es := by
      unfold generate_fallback_analysis
      rw [hzh]
      simp only [if_true]
      rw [resultFactors_triple]
    have hc := finalFallback_core emotion_to_factor_zh emotion_to_factor_zh_label_ne
      "情绪反应"
      "我们的感受往往反映了更深层的需求和关注点，值得我们关注。"
      (by decide) es
    exact ⟨by rw [hfl]; exact hc.1, by rw [hfl]; exact hc.2.1⟩

theorem dictSetDefault_of_present (d : List (String × Json)) (k : String) (v : Json)
    (h : (d.lookup k).isSome) : dictSetDefault d k v = d := by
  unfold dictSetDefault
  rw [if_pos h]

theorem parse_response_decoded_cases (fields : List (String × Json)) :
    parse_response (.decoded fields) = .error () ∨
    ∃ (fs : List Json) (r : List (String × Json)), parse_response (.decoded fields) = .ok r ∧
      resultFactors r = (fs.filterMap validateFactor).take 5 := by
  cases hIt : iterFactors ((List.lookup "factors"
      (dictSetDefault (dictSetDefault (dictSetDefault fields "central_stressor"
        (Json.str "Unidentified situation")) "factors" (Json.arr []))
        "language" (Json.str "en"))).getD (Json.arr [])) with
  | error u =>
      left
      unfold parse_response
      dsimp only
      rw [hIt]
  | ok fs =>
      right
      refine ⟨fs, dictSet (dictSetDefault (dictSetDefault (dictSetDefault fields
          "central_stressor" (Json.str "Unidentified situation")) "factors" (Json.arr []))
          "language" (Json.str "en")) "factors" (Json.arr ((fs.filterMap validateFactor).take 5)),
        ?_, resultFactors_dictSet _ _⟩
      unfold parse_response
      dsimp only
      rw [hIt]

/-- Claim C3 counterexample: a model response whose extracted JSON object
decodes but carries no factors field — e.g. the raw text
`\x7b"central_stressor": "Job Stress"\x7d` — makes `analyze_story` return an
analysis with zero factors, refuting the claimed lower bound of 1. -/
theorem analyze_story_empty_factors_cx :
    (resultFactors (analyze_story
      (.response (.decoded [("central_stressor", Json.str "Job Stress")]))
      "I was passed over for a promotion and I cannot stop thinking about it."
      ["down"])).length = 0 := rfl

/-- Claim C3 (amended): `analyze_story` always returns at most 5 factors, and
on every path other than a successfully decoded model response (model-call
failure, no brace-delimited block, JSON decode error) it returns between 1 and
4 factors; the decoded-parse path alone may yield an empty factor list. -/
theorem analyze_story_factor_bounds :
    ∀ call story es,
      (resultFactors (analyze_story call story es)).length ≤ 5 ∧
      ((∀ fields, call ≠ ModelCall.response (ParseInput.decoded fields)) →
        1 ≤ (resultFactors (analyze_story call story es)).length ∧
        (resultFactors (analyze_story call story es)).length ≤ 4) := by
  intro call story es
  cases call with
  | failure =>
      have hb := fallback_factor_bounds story es
      exact ⟨by simpa [analyze_story] using by omega, fun _ => by
        simpa [analyze_story] using hb⟩
  | response pin =>
      cases pin with
      | noMatch =>
          refine ⟨?_, fun _ => ?_⟩ <;> simp [analyze_story, parse_response,
            resultFactors_basicFallback]
      | badJson =>
          refine ⟨?_, fun _ => ?_⟩ <;> simp [analyze_story, parse_response,
            resultFactors_basicFallback]
      | decoded fields =>
          rcases parse_response_decoded_cases fields with herr | ⟨fs, r, hok, hfac⟩
          · have hb := fallback_factor_bounds story es
            have heq : analyze_story (.response (.decoded fields)) story es
                = generate_fallback_analysis story es := by
              unfold analyze_story
              dsimp only
              rw [herr]
            exact ⟨by rw [heq]; omega,
              fun h => absurd rfl (h fields)⟩
          · have heq : analyze_story (.response (.decoded fields)) story es = r := by
              unfold analyze_story
              dsimp only
              rw [hok]
            refine ⟨?_, fun h => absurd rfl (h fields)⟩
            rw [heq, hfac]
            exact List.length_take_le _ _

/-- Witness for claim C3's amended theorem at a concrete fallback run. -/
theorem analyze_story_factor_bounds_witness :
    (resultFactors (analyze_story .failure
      "I was passed over for a promotion and I cannot stop thinking about it."
      ["down"])).length ≤ 5 ∧
    1 ≤ (resultFactors (analyze_story .failure
      "I was passed over for a promotion and I cannot stop thinking about it."
      ["down"])).length :=
  ⟨(analyze_story_factor_bounds .failure
      "I was passed over for a promotion and I cannot stop thinking about it." ["down"]).1,
   ((analyze_story_factor_bounds .failure
      "I was passed over for a promotion and I cannot stop thinking about it." ["down"]).2
      (fun fields h => ModelCall.noConfusion h)).1⟩

/-- Claim C7 counterexample: a decoded response whose single factor entry has a
label but NO insight text is kept (with the insight defaulted to the empty
string) rather than dropped, refuting the claim that each factor must contain
both a label and insight text with malformed entries dropped. -/
theorem parse_response_missing_insight_kept_cx :
    parse_response (.decoded
      [("factors", Json.arr [Json.obj [("factor", Json.str "Fear of Judgment")]])])
    = .ok [("factors", Json.arr [Json.obj [("factor", Json.str "Fear of Judgment"),
              ("insight", Json.str "")]]),
           ("central_stressor", Json.str "Unidentified situation"),
           ("language", Json.str "en")] := rfl

/-- Claim C7 (amended): on a decoded JSON object, a missing central_stressor
defaults to the fixed "Unidentified situation" sentinel and a missing language
defaults to "en"; each factor entry is kept exactly when it is an object
containing a factor label (a missing insight is tolerated and defaults to the
empty string rather than causing the entry to be dropped); the factor list is
capped at 5; and the extraction regex is greedy, spanning from the first
opening brace to the last closing brace of the raw text rather than the first
top-level block. -/
theorem parse_response_tolerant_spec :
    (∀ (fields : List (String × Json)) (xs : List Json),
      fields.lookup "factors" = some (Json.arr xs) →
      ∃ r, parse_response (.decoded fields) = .ok r ∧
        resultFactors r = (xs.filterMap validateFactor).take 5 ∧
        (resultFactors r).length ≤ 5 ∧
        (fields.lookup "central_stressor" = none →
          r.lookup "central_stressor" = some (.str "Unidentified situation")) ∧
        (fields.lookup "language" = none →
          r.lookup "language" = some (.str "en"))) ∧
    (∀ j : Json, (validateFactor j).isSome ↔
      ∃ flds, j = Json.obj flds ∧ (flds.lookup "factor").isSome) ∧
    extractBraceSpan "x\x7b\"a\": 1\x7d y \x7b\"b\": 2\x7dz"
      = some "\x7b\"a\": 1\x7d y \x7b\"b\": 2\x7d" := by
  refine ⟨?_, ?_, by rfl⟩
  · intro fields xs hx
    have h1 : (dictSetDefault fields "central_stressor" (.str "Unidentified situation")).lookup "factors"
        = some (Json.arr xs) := by
      rw [lookup_dictSetDefault_ne _ _ _ _ (by decide)]
      exact hx
    have h2 : dictSetDefault (dictSetDefault fields "central_stressor" (.str "Unidentified situation"))
        "factors" (.arr []) = dictSetDefault fields "central_stressor" (.str "Unidentified situation") :=
      dictSetDefault_of_present _ _ _ (by rw [h1]; rfl)
    have h3 : (dictSetDefault (dictSetDefault (dictSetDefault fields "central_stressor"
          (.str "Unidentified situation")) "factors" (.arr [])) "language" (.str "en")).lookup "factors"
        = some (Json.arr xs) := by
      rw [lookup_dictSetDefault_ne _ _ _ _ (by decide), h2, h1]
    refine ⟨dictSet (dictSetDefault (dictSetDefault (dictSetDefault fields
        "central_stressor" (Json.str "Unidentified situation")) "factors" (Json.arr []))
        "language" (Json.str "en")) "factors" (Json.arr ((xs.filterMap validateFactor).take 5)),
      ?_, ?_, ?_, ?_, ?_⟩
    case refine_1 =>
      show parse_response (.decoded fields) = .ok _
      unfold parse_response
      dsimp only
      rw [h3]
      rfl
    case refine_2 => exact resultFactors_dictSet _ _
    case refine_3 =>
      rw [resultFactors_dictSet]
      exact List.length_take_le _ _
    case refine_4 =>
      intro hc
      rw [lookup_dictSet_ne _ _ _ _ (by decide),
        lookup_dictSetDefault_ne _ _ _ _ (by decide), h2,
        lookup_dictSetDefault_self, hc]
      rfl
    case refine_5 =>
      intro hl
      rw [lookup_dictSet_ne _ _ _ _ (by decide), lookup_dictSetDefault_self, h2,
        lookup_dictSetDefault_ne _ _ _ _ (by decide), hl]
      rfl
  · intro j
    cases j with
    | obj flds =>
        constructor
        · intro hs
          refine ⟨flds, rfl, ?_⟩
          by_contra hcon
          have : validateFactor (.obj flds) = none := by
            simp only [validateFactor]
            rw [if_neg hcon]
          rw [this] at hs
          simp at hs
        · rintro ⟨flds', heq, hsome⟩
          cases heq
          simp only [validateFactor]
          rw [if_pos hsome]
          rfl
    | null => simp [validateFactor]
    | bool b => simp [validateFactor]
    | num n => simp [validateFactor]
    | str s => simp [validateFactor]
    | arr xs => simp [validateFactor]

/-- Witness for claim C7's amended theorem at a concrete decoded object. -/
theorem parse_response_tolerant_spec_witness :
    ([("factors", Json.arr [])] : List (String × Json)).lookup "factors"
      = some (Json.arr []) ∧
    ∃ r, parse_response (.decoded [("factors", Json.arr [])]) = .ok r ∧
      resultFactors r = (([] : List Json).filterMap validateFactor).take 5 ∧
      (resultFactors r).length ≤ 5 ∧
      (([("factors", Json.arr [])] : List (String × Json)).lookup "central_stressor" = none →
        r.lookup "central_stressor" = some (.str "Unidentified situation")) ∧
      (([("factors", Json.arr [])] : List (String × Json)).lookup "language" = none →
        r.lookup "language" = some (.str "en")) :=
  ⟨rfl, parse_response_tolerant_spec.1 [("factors", Json.arr [])] [] rfl⟩

/-! ## Story endpoint response assembly (visualizations.py, claim C2) -/

structure StoryAnalysisR where
  central_stressor : Json
  factors : List (Json × Json)
  language : Json

/-- Python `f.get(key, "")` on a factor entry; the analyzer only ever emits
object entries here, so the dict case is the one exercised. -/
def factorDictGet (f : Json) (k : String) : Json :=
  match f with
  | .obj fl => (fl.lookup k).getD (.str "")
  | _ => .str ""

/-- The `StoryAnalysis(...)` construction in `generate_story_visualization`
(lines 330-340): each response factor pairs `f.get("factor", "")` with
`f.get("description", "")`. -/
def build_story_analysis (r : List (String × Json)) : StoryAnalysisR :=
  { central_stressor := (r.lookup "central_stressor").getD (.str "")
  , factors := (resultFactors r).map
      (fun f => (factorDictGet f "factor", factorDictGet f "description"))
  , language := (r.lookup "language").getD (.str "en") }

/-- Claim C2 evaluation: for a concrete story request whose analysis runs the
deterministic fallback, the analyzer's factor carries non-empty insight text,
but the endpoint's response assembly reads the key `description` — a key the
analyzer never writes — so the factor text returned to the caller is the empty
string: the insight is dropped instead of being returned verbatim. -/
theorem story_response_insight_dropped :
    resultFactors (analyze_story .failure
        "I was passed over for a promotion and I cannot stop thinking about it." ["down"])
      = [Json.obj [("factor", Json.str "Sadness"),
          ("insight", Json.str "Sadness often reflects loss or unmet expectations; it invites us to slow down and process what matters.")]] ∧
    (build_story_analysis (analyze_story .failure
        "I was passed over for a promotion and I cannot stop thinking about it." ["down"])).factors
      = [(Json.str "Sadness", Json.str "")] ∧
    (build_story_analysis (analyze_story .failure
        "I was passed over for a promotion and I cannot stop thinking about it." ["down"])).central_stressor
      = Json.str "Current Situation" ∧
    (build_story_analysis (analyze_story .failure
        "I was passed over for a promotion and I cannot stop thinking about it." ["down"])).language
      = Json.str "en" :=
  ⟨rfl, rfl, rfl, rfl⟩

/-! ## Generation client retry loop (gemini_client.py, claims C1, C5)

`generate_visualization_image` is a loop `for attempt in range(max_retries + 1)`
around a call to the external service. Each iteration's interaction with the
outside world is one of: a successful image, an `asyncio.TimeoutError`, or an
exception with some message text. The loop is modelled as a function of the
per-attempt outcome sequence; its trace records the value returned or raised,
the number of service calls issued and the backoff sleeps performed. -/

/-- Python `str.lower()` (the texts classified here are ASCII). -/
def pyLower (s : String) : String := String.mk (s.toList.map Char.toLower)

def isPrefixOfL : List Char → List Char → Bool
  | [], _ => true
  | _ :: _, [] => false
  | a :: as, b :: bs => a == b && isPrefixOfL as bs

/-- Python `pat in s` substring containment. -/
def strContains (s pat : String) : Bool :=
  go pat.toList s.toList
where
  go (pat : List Char) : List Char → Bool
    | [] => isPrefixOfL pat []
    | c :: rest => isPrefixOfL pat (c :: rest) || go pat rest

inductive AttemptOutcome where
  | success (width height : Nat) (data : String)
  | timeout
  | failure (msg : String)

inductive GenOutcome where
  | ok (width height : Nat) (data : String)
  | err (msg : String)
deriving DecidableEq

structure GenTrace where
  result : GenOutcome
  calls : Nat
  sleeps : List Nat
deriving DecidableEq

/-- The terminal-error classification inside the `except Exception` arm:
content-safety markers abort with the filtered message, then invalid-API-key
markers abort with the configuration message; anything else is retryable. -/
def classifyTerminal (msg : String) : Option String :=
  let low := pyLower msg
  if strContains low "safety" || strContains low "blocked" then
    some "Content was filtered by safety settings"
  else if strContains low "invalid" && strContains low "api key" then
    some "Invalid API key configuration"
  else none

/-- The loop body of `generate_visualization_image`, by remaining iterations:
`remaining` counts the iterations `range(max_retries + 1)` still to run, and a
sleep of `1 * 2 ** attempt` seconds happens only when the failing attempt is
not the last (`attempt < max_retries`). When the budget is exhausted the last
recorded exception is raised (the generic after-retries message only stands in
when no attempt ever ran). -/
def genAttempts (outcomes : Nat → AttemptOutcome) (attempt : Nat) :
    Nat → Option String → GenTrace
  | 0, lastExc => ⟨.err (lastExc.getD "Image generation failed after retries"), 0, []⟩
  | r + 1, _ =>
      match outcomes attempt with
      | .success w h d => ⟨.ok w h d, 1, []⟩
      | .timeout =>
          if r = 0 then ⟨.err "Image generation timed out", 1, []⟩
          else
            let t := genAttempts outcomes (attempt + 1) r (some "Image generation timed out")
            ⟨t.result, t.calls + 1, 2 ^ attempt :: t.sleeps⟩
      | .failure msg =>
          match classifyTerminal msg with
          | some terminal => ⟨.err terminal, 1, []⟩
          | none =>
              if r = 0 then ⟨.err ("Image generation failed: " ++ msg), 1, []⟩
              else
                let t := genAttempts outcomes (attempt + 1) r
                  (some ("Image generation failed: " ++ msg))
                ⟨t.result, t.calls + 1, 2 ^ attempt :: t.sleeps⟩

/-- `GeminiClient.generate_visualization_image` under a retry budget of
`max_retries` (configuration default 2), as a function of the per-attempt
outcomes. The wall-clock `generation_time_ms` measurement is outside the model. -/
def generate_visualization_image (max_retries : Nat) (outcomes : Nat → AttemptOutcome) :
    GenTrace :=
  genAttempts outcomes 0 (max_retries + 1) none

/-- The error-kind mapping of `handle_generation_error` for `GeminiAPIError`
texts (visualizations.py lines 147-164). -/
inductive ErrorCode where
  | GENERATION_TIMEOUT
  | CONTENT_FILTERED
  | CONFIGURATION_ERROR
  | GENERATION_SERVICE_ERROR
deriving DecidableEq

def classify_error (msg : String) : ErrorCode :=
  let low := pyLower msg
  if strContains low "timeout" then .GENERATION_TIMEOUT
  else if strContains low "safety" || strContains low "filter" then .CONTENT_FILTERED
  else if strContains low "api key" then .CONFIGURATION_ERROR
  else .GENERATION_SERVICE_ERROR

/-- Claim C1: a first-attempt failure whose text carries a content-safety
marker makes the client abort immediately — one service call, no sleeps —
raising the filtered-content message, whose text maps to CONTENT_FILTERED at
the boundary; likewise an invalid-credentials failure aborts immediately with
the configuration message, mapping to CONFIGURATION_ERROR. -/
theorem generation_terminal_abort :
    (∀ (max_retries : Nat) (outcomes : Nat → AttemptOutcome) (msg : String),
      outcomes 0 = .failure msg →
      (strContains (pyLower msg) "safety" || strContains (pyLower msg) "blocked") = true →
      (generate_visualization_image max_retries outcomes).result
          = .err "Content was filtered by safety settings" ∧
      (generate_visualization_image max_retries outcomes).calls = 1 ∧
      (generate_visualization_image max_retries outcomes).sleeps = []) ∧
    classify_error "Content was filtered by safety settings" = .CONTENT_FILTERED ∧
    (∀ (max_retries : Nat) (outcomes : Nat → AttemptOutcome) (msg : String),
      outcomes 0 = .failure msg →
      (strContains (pyLower msg) "safety" || strContains (pyLower msg) "blocked") = false →
      (strContains (pyLower msg) "invalid" && strContains (pyLower msg) "api key") = true →
      (generate_visualization_image max_retries outcomes).result
          = .err "Invalid API key configuration" ∧
      (generate_visualization_image max_retries outcomes).calls = 1 ∧
      (generate_visualization_image max_retries outcomes).sleeps = []) ∧
    classify_error "Invalid API key configuration" = .CONFIGURATION_ERROR := by
  refine ⟨?_, by decide, ?_, by decide⟩
  · intro mr outcomes msg ho hs
    have hct : classifyTerminal msg = some "Content was filtered by safety settings" := by
      unfold classifyTerminal
      rw [if_pos hs]
    unfold generate_visualization_image
    simp only [genAttempts]
    rw [ho]
    simp [hct]
  · intro mr outcomes msg ho hs hk
    have hct : classifyTerminal msg = some "Invalid API key configuration" := by
      unfold classifyTerminal
      rw [if_neg (by rw [hs]; exact Bool.false_ne_true), if_pos hk]
    unfold generate_visualization_image
    simp only [genAttempts]
    rw [ho]
    simp [hct]

/-- Witness for claim C1's theorem at concrete terminal failures. -/
theorem generation_terminal_abort_witness :
    ((fun _ => AttemptOutcome.failure "Request blocked by policy") 0
        = AttemptOutcome.failure "Request blocked by policy") ∧
    (strContains (pyLower "Request blocked by policy") "safety"
        || strContains (pyLower "Request blocked by policy") "blocked") = true ∧
    (generate_visualization_image 2 (fun _ => .failure "Request blocked by policy")).result
        = .err "Content was filtered by safety settings" ∧
    (generate_visualization_image 2 (fun _ => .failure "Request blocked by policy")).calls = 1 :=
  ⟨rfl, by decide,
    (generation_terminal_abort.1 2 (fun _ => .failure "Request blocked by policy")
      "Request blocked by policy" rfl (by decide)).1,
    (generation_terminal_abort.1 2 (fun _ => .failure "Request blocked by policy")
      "Request blocked by policy" rfl (by decide)).2.1⟩

/-- Whether an attempt outcome is a retryable failure (timeout, or an
exception not classified terminal). -/
def retryableFail : AttemptOutcome → Bool
  | .timeout => true
  | .failure msg => (classifyTerminal msg).isNone
  | .success _ _ _ => false

/-- The exception text the loop records for a failed attempt. -/
def attemptErrMsg : AttemptOutcome → String
  | .timeout => "Image generation timed out"
  | .failure msg => "Image generation failed: " ++ msg
  | .success _ _ _ => ""

theorem genAttempts_calls_le (outcomes : Nat → AttemptOutcome) :
    ∀ (r a : Nat) (last : Option String), (genAttempts outcomes a r last).calls ≤ r := by
  intro r
  induction r with
  | zero => intro a last; rfl
  | succ r ih =>
      intro a last
      simp only [genAttempts]
      cases outcomes a with
      | success w h d => show 1 ≤ r + 1; omega
      | timeout =>
          by_cases hr : r = 0
          · rw [if_pos hr]
            show 1 ≤ r + 1
            omega
          · rw [if_neg hr]
            show (genAttempts outcomes (a + 1) r (some "Image generation timed out")).calls + 1
                ≤ r + 1
            have := ih (a + 1) (some "Image generation timed out")
            omega
      | failure msg =>
          dsimp only
          cases classifyTerminal msg with
          | some t => show 1 ≤ r + 1; omega
          | none =>
              by_cases hr : r = 0
              · rw [if_pos hr]
                show 1 ≤ r + 1
                omega
              · rw [if_neg hr]
                show (genAttempts outcomes (a + 1) r
                    (some ("Image generation failed: " ++ msg))).calls + 1 ≤ r + 1
                have := ih (a + 1) (some ("Image generation failed: " ++ msg))
                omega

theorem genAttempts_calls_pos (outcomes : Nat → AttemptOutcome) (r a : Nat)
    (last : Option String) : 1 ≤ (genAttempts outcomes a (r + 1) last).calls := by
  simp only [genAttempts]
  cases outcomes a with
  | success w h d => show 1 ≤ 1; omega
  | timeout =>
      by_cases hr : r = 0
      · rw [if_pos hr]
      · rw [if_neg hr]
        show 1 ≤ (genAttempts outcomes (a + 1) r (some "Image generation timed out")).calls + 1
        omega
  | failure msg =>
      dsimp only
      cases classifyTerminal msg with
      | some t => show 1 ≤ 1; omega
      | none =>
          by_cases hr : r = 0
          · rw [if_pos hr]
          · rw [if_neg hr]
            show 1 ≤ (genAttempts outcomes (a + 1) r
                (some ("Image generation failed: " ++ msg))).calls + 1
            omega

theorem genAttempts_sleeps (outcomes : Nat → AttemptOutcome) :
    ∀ (r a : Nat) (last : Option String),
      (genAttempts outcomes a r last).sleeps
        = (List.range ((genAttempts outcomes a r last).calls - 1)).map
            (fun k => 2 ^ (a + k)) := by
  intro r
  induction r with
  | zero => intro a last; rfl
  | succ r ih =>
      intro a last
      have step : ∀ (m : String),
          let t := genAttempts outcomes (a + 1) r (some m)
          r ≠ 0 →
          (2 ^ a :: t.sleeps)
            = (List.range ((t.calls + 1) - 1)).map (fun k => 2 ^ (a + k)) := by
        intro m t hr
        obtain ⟨r', rfl⟩ : ∃ r', r = r' + 1 := ⟨r - 1, by omega⟩
        have hpos : 1 ≤ t.calls := genAttempts_calls_pos outcomes r' (a + 1) (some m)
        obtain ⟨c, hc⟩ : ∃ c, t.calls = c + 1 := ⟨t.calls - 1, by omega⟩
        have iht := ih (a + 1) (some m)
        rw [show genAttempts outcomes (a+1) (r'+1) (some m) = t from rfl] at iht
        rw [iht, hc]
        simp only [Nat.add_sub_cancel, List.range_succ_eq_map, List.map_cons,
          List.map_map, Nat.add_zero]
        have hfun : List.map ((fun k => 2 ^ (a + k)) ∘ Nat.succ) (List.range c)
            = List.map (fun k => 2 ^ (a + 1 + k)) (List.range c) := by
          apply List.map_congr_left
          intro k _
          simp only [Function.comp_apply]
          congr 1
          omega
        rw [hfun]
      simp only [genAttempts]
      cases outcomes a with
      | success w h d => rfl
      | timeout =>
          dsimp only
          by_cases hr : r = 0
          · rw [if_pos hr]
            rfl
          · rw [if_neg hr]
            exact step "Image generation timed out" hr
      | failure msg =>
          dsimp only
          cases classifyTerminal msg with
          | some t => rfl
          | none =>
              by_cases hr : r = 0
              · rw [if_pos hr]
                rfl
              · rw [if_neg hr]
                exact step ("Image generation failed: " ++ msg) hr

theorem genAttempts_succ (outcomes : Nat → AttemptOutcome) (a r : Nat)
    (last : Option String) :
    genAttempts outcomes a (r + 1) last = match outcomes a with
      | .success w h d => ⟨.ok w h d, 1, []⟩
      | .timeout =>
          if r = 0 then ⟨.err "Image generation timed out", 1, []⟩
          else
            let t := genAttempts outcomes (a + 1) r (some "Image generation timed out")
            ⟨t.result, t.calls + 1, 2 ^ a :: t.sleeps⟩
      | .failure msg =>
          match classifyTerminal msg with
          | some terminal => ⟨.err terminal, 1, []⟩
          | none =>
              if r = 0 then ⟨.err ("Image generation failed: " ++ msg), 1, []⟩
              else
                let t := genAttempts outcomes (a + 1) r
                  (some ("Image generation failed: " ++ msg))
                ⟨t.result, t.calls + 1, 2 ^ a :: t.sleeps⟩ := rfl

theorem genAttempts_exhaustion (outcomes : Nat → AttemptOutcome) :
    ∀ (r a : Nat) (last : Option String),
      (∀ i, a ≤ i → i < a + (r + 1) → retryableFail (outcomes i) = true) →
      (genAttempts outcomes a (r + 1) last).result
          = .err (attemptErrMsg (outcomes (a + r))) ∧
      (genAttempts outcomes a (r + 1) last).calls = r + 1 := by
  intro r
  induction r with
  | zero =>
      intro a last hall
      have ha := hall a (Nat.le_refl a) (by omega)
      simp only [genAttempts]
      cases houtcome : outcomes a with
      | success w h d => rw [houtcome] at ha; simp [retryableFail] at ha
      | timeout => exact ⟨by simp [houtcome, attemptErrMsg], rfl⟩
      | failure msg =>
          rw [houtcome] at ha
          simp only [retryableFail, Option.isNone_iff_eq_none] at ha
          dsimp only
          rw [ha]
          exact ⟨by simp [houtcome, attemptErrMsg], rfl⟩
  | succ r ih =>
      intro a last hall
      have ha := hall a (Nat.le_refl a) (by omega)
      have hshift : ∀ i, a + 1 ≤ i → i < (a + 1) + (r + 1) →
          retryableFail (outcomes i) = true := by
        intro i h1 h2
        exact hall i (by omega) (by omega)
      rw [genAttempts_succ]
      cases houtcome : outcomes a with
      | success w h d => rw [houtcome] at ha; simp [retryableFail] at ha
      | timeout =>
          have hrec := ih (a + 1) (some "Image generation timed out") hshift
          rw [show a + 1 + r = a + (r + 1) from by omega] at hrec
          dsimp only
          rw [if_neg (by omega : ¬ r + 1 = 0)]
          refine ⟨?_, ?_⟩
          · show (genAttempts outcomes (a + 1) (r + 1)
                (some "Image generation timed out")).result = _
            exact hrec.1
          · show (genAttempts outcomes (a + 1) (r + 1)
                (some "Image generation timed out")).calls + 1 = r + 1 + 1
            omega
      | failure msg =>
          rw [houtcome] at ha
          simp only [retryableFail, Option.isNone_iff_eq_none] at ha
          have hrec := ih (a + 1) (some ("Image generation failed: " ++ msg)) hshift
          rw [show a + 1 + r = a + (r + 1) from by omega] at hrec
          dsimp only
          rw [ha]
          rw [if_neg (by omega : ¬ r + 1 = 0)]
          refine ⟨?_, ?_⟩
          · show (genAttempts outcomes (a + 1) (r + 1)
                (some ("Image generation failed: " ++ msg))).result = _
            exact hrec.1
          · show (genAttempts outcomes (a + 1) (r + 1)
                (some ("Image generation failed: " ++ msg))).calls + 1 = r + 1 + 1
            omega

/-- Claim C5 counterexample: when every attempt fails retryably with the text
"api key quota exceeded" (no terminal marker: it lacks "invalid", "safety" and
"blocked"), the exhausted loop raises the last recorded wrapped error — not
the generic after-retries message — and that text maps to CONFIGURATION_ERROR
at the boundary, not to a generic generation failure. (The all-timeout run is
also not surfaced as a timeout: the raised text "Image generation timed out"
does not contain the marker substring "timeout", so it maps to the generic
service error.) -/
theorem retry_exhaustion_last_error_cx :
    (generate_visualization_image 1 (fun _ => .failure "api key quota exceeded")).result
        = .err "Image generation failed: api key quota exceeded" ∧
    (generate_visualization_image 1 (fun _ => .failure "api key quota exceeded")).result
        ≠ .err "Image generation failed after retries" ∧
    classify_error "Image generation failed: api key quota exceeded"
        = .CONFIGURATION_ERROR ∧
    classify_error "Image generation timed out" = .GENERATION_SERVICE_ERROR :=
  ⟨rfl, by decide, by decide, by decide⟩

/-- Claim C5 (amended): the client issues at most `max_retries + 1` calls;
between consecutive attempts it sleeps `1 * 2 ^ (attempt - 1)` seconds
(attempt counted from 1, so the j-th sleep is `2 ^ j` for j counted from 0);
and when every attempt fails retryably it exhausts the budget and raises the
error recorded for the LAST attempt (the timeout message if it timed out,
the wrapped failure message otherwise) — not the generic after-retries
message, which is unreachable once at least one attempt runs. -/
theorem generate_visualization_image_retry_spec :
    ∀ (max_retries : Nat) (outcomes : Nat → AttemptOutcome),
      (generate_visualization_image max_retries outcomes).calls ≤ max_retries + 1 ∧
      (generate_visualization_image max_retries outcomes).sleeps
        = (List.range ((generate_visualization_image max_retries outcomes).calls - 1)).map
            (fun k => 2 ^ k) ∧
      ((∀ i, i ≤ max_retries → retryableFail (outcomes i) = true) →
        (generate_visualization_image max_retries outcomes).result
            = .err (attemptErrMsg (outcomes max_retries)) ∧
        (generate_visualization_image max_retries outcomes).calls = max_retries + 1) := by
  intro mr outcomes
  refine ⟨genAttempts_calls_le outcomes (mr + 1) 0 none, ?_, ?_⟩
  · have := genAttempts_sleeps outcomes (mr + 1) 0 none
    simpa [generate_visualization_image] using this
  · intro hall
    have := genAttempts_exhaustion outcomes mr 0 none
      (fun i h1 h2 => hall i (by omega))
    exact ⟨by simpa [generate_visualization_image] using this.1,
      by simpa [generate_visualization_image] using this.2⟩

/-- Witness for claim C5's amended theorem: budget 1, both attempts time out. -/
theorem generate_visualization_image_retry_spec_witness :
    (generate_visualization_image 1 (fun _ => .timeout)).calls ≤ 2 ∧
    (∀ i, i ≤ 1 → retryableFail ((fun _ => AttemptOutcome.timeout) i) = true) ∧
    (generate_visualization_image 1 (fun _ => .timeout)).result
        = .err (attemptErrMsg AttemptOutcome.timeout) ∧
    (generate_visualization_image 1 (fun _ => .timeout)).calls = 2 :=
  ⟨(generate_visualization_image_retry_spec 1 (fun _ => .timeout)).1,
   fun i _ => rfl,
   ((generate_visualization_image_retry_spec 1 (fun _ => .timeout)).2.2 (fun i _ => rfl)).1,
   ((generate_visualization_image_retry_spec 1 (fun _ => .timeout)).2.2 (fun i _ => rfl)).2⟩

/-! ## Story prompt assembly (prompt_builder.py, claim C10) -/

/-- `STORY_BASE_STYLE` (triple-quoted literal). -/
def STORY_BASE_STYLE : String :=
  "\nCreate a minimalist 2D cartoon illustration with these characteristics:\n- Minimalist, flat 2D cartoon style (clean, simple, not detailed)\n- SYMMETRICAL composition - balanced layout with central focus\n- White or light neutral background\n- Gentle pastel colors\n- No text, letters, words, or numbers in the image\n- Clean lines, minimal detail\n- Friendly and non-threatening visual style\n"

/-- The fixed final instruction block of `build_story_prompt`, including the
ASCII example composition. -/
def STORY_FINAL_INSTRUCTION : String :=
  "\nCreate a minimalist 2D cartoon infographic:\n- SYMMETRICAL composition with balanced layout\n- Central icon in the middle representing the main situation\n- Surrounding icons arranged symmetrically around the center (like a mind-map)\n- Clean lines, flat design, minimal detail\n- NO text labels in the image\n- White or light neutral background\n- Connected with simple lines from center to surrounding icons\n- Soft pastel colors based on emotional tone\n- Child-friendly, non-threatening visual style\n\nExample composition:\n        [Factor]          [Factor]\n              \\              /\n               \\            /\n                [ Central  ]\n               /            \\\n              /              \\\n        [Factor]          [Factor]"

/-- Python `str.strip()` (whitespace at both ends). -/
def pyStrip (s : String) : String :=
  String.mk (((s.toList.dropWhile Char.isWhitespace).reverse.dropWhile
    Char.isWhitespace).reverse)

/-- `PromptBuilder._summarize_story` with its default `max_length = 300`. -/
def _summarize_story (text : String) : String :=
  let text := pyStrip text
  if text.length ≤ 300 then text
  else String.mk (text.toList.take (300 - 3)) ++ "..."

/-- Python `emotion_id.replace("_", " ")`. -/
def underscoresToSpaces (s : String) : String :=
  String.mk (s.toList.map (fun c => if c = '_' then ' ' else c))

/-- `PromptBuilder._build_emotion_context`. -/
def _build_emotion_context (selected_emotions : List String)
    (feeling_category : String) : String :=
  let emotion_names := selected_emotions.filterMap
    (fun e => (EMOTION_PROFILES e).map (fun _ => underscoresToSpaces e))
  let energy_levels := selected_emotions.filterMap
    (fun e => (EMOTION_PROFILES e).map (·.energy))
  let context_parts : List String :=
    if emotion_names ≠ [] then ["The person feels: " ++ pyJoin ", " emotion_names] else []
  let context_parts := context_parts ++
    [if energy_levels.contains "intense" then "The emotional intensity is high."
     else if energy_levels.all (· = "calm") then "The emotional state is calm and subdued."
     else "The emotional state is moderate."]
  pyJoin " " context_parts

/-- Python truthiness of a decoded JSON value (`if f.get("factor"):`):
`None` and `False` are falsy, numbers are truthy iff nonzero, strings, lists
and dicts iff non-empty. A missing key yields `None`, which `factorDictGet`
renders as the equally-falsy empty string. -/
def pyTruthy : Json → Bool
  | .null => false
  | .bool b => b
  | .num n => n != 0
  | .str s => s != ""
  | .arr xs => !xs.isEmpty
  | .obj fields => !fields.isEmpty

/-- The factor names drawn into the story prompt:
`[f.get("factor", "") for f in factors if f.get("factor")]`, each then
rendered into the prompt by the f-string as "- " followed by its label. An
entry is kept exactly when its label value is truthy; the f-string applies
Python `str()` to the kept value — the identity on strings, and on any other
decoded JSON value the Python runtime's fixed rendering, made explicit here
as the parameter `toStr` (e.g. `str()` of a list renders its elements with
`repr`, which can itself introduce quote characters). -/
def storyFactorNames (toStr : Json → String) (factors : List Json) : List String :=
  factors.filterMap (fun f =>
    let v := factorDictGet f "factor"
    if pyTruthy v then
      some (match v with
        | .str s => s
        | _ => toStr v)
    else none)

/-- The second prompt part: the analyzed central stressor when truthy
(`if central_stressor:` — neither `None` nor empty), otherwise the truncated
story summary. -/
def storyCentralPart (story_text : String) (central_stressor : Option String) : String :=
  match central_stressor with
  | some cs =>
      if cs != "" then "\nCENTRAL SITUATION:\n" ++ cs
      else "\nSTORY TO ILLUSTRATE:\n" ++ _summarize_story story_text
  | none => "\nSTORY TO ILLUSTRATE:\n" ++ _summarize_story story_text

/-- The optional factors part (`if factors:` then `if factor_names:`). -/
def storyFactorParts (toStr : Json → String) (factors : Option (List Json)) : List String :=
  match factors with
  | none => []
  | some fl =>
      if fl.isEmpty then []
      else
        let names := storyFactorNames toStr fl
        if names.isEmpty then []
        else ["\nEMOTIONAL FACTORS TO SHOW AS ICONS:\n" ++
          pyJoin "\n" (names.map (fun n => "- " ++ n))]

/-- `PromptBuilder.build_story_prompt`, with the set-enumeration `ord` of
`_get_color_palette` and the runtime's `str()` rendering of non-string factor
labels `toStr` explicit. -/
def build_story_prompt (ord : List String → List String) (toStr : Json → String)
    (story_text : String) (feeling_category : String) (selected_emotions : List String)
    (central_stressor : Option String) (factors : Option (List Json)) : String :=
  pyJoin "\n"
    ([STORY_BASE_STYLE, storyCentralPart story_text central_stressor] ++
     storyFactorParts toStr factors ++
     ["\nEMOTIONAL CONTEXT:\n" ++ _build_emotion_context selected_emotions feeling_category,
      "\nCOLOR MOOD:\n" ++ _get_color_palette ord selected_emotions feeling_category,
      STORY_FINAL_INSTRUCTION])

/-! ## Placeholder layout dispatch and label extraction (gemini_client.py) -/

/-- The double-quote character of the extraction patterns. -/
def dquote : Char := Char.ofNat 34

/-- `_generate_placeholder_image`'s layout dispatch: mind-map layout exactly
when the lowercased prompt contains one of the marker phrases. -/
def is_story_prompt (prompt : String) : Bool :=
  let pl := pyLower prompt
  strContains pl "mind-map" || strContains pl "diagram" || strContains pl "central situation"

/-- The literal prefix of the central-label pattern r'label "([^"]+)" below it'. -/
def centralPatPre : List Char := ("label " ++ String.mk [dquote]).toList

/-- The literal suffix of the central-label pattern. -/
def centralPatSuf : List Char := (String.mk [dquote] ++ " below it").toList

/-- The literal prefix of the factor pattern `Icon \+ label: "([^"]+)"`. -/
def factorPatPre : List Char := ("Icon + label: " ++ String.mk [dquote]).toList

/-- Try the central pattern at the head of the text: the literal prefix, a
non-empty run of non-quote characters (the capture), then the literal suffix.
Because the capture class excludes the quote, the greedy capture is forced and
this is exactly the regex's behavior at one position. -/
def matchCentralAt (cs : List Char) : Option (List Char) :=
  if isPrefixOfL centralPatPre cs then
    let rest := cs.drop centralPatPre.length
    let cap := rest.takeWhile (fun c => c ≠ dquote)
    if cap.isEmpty then none
    else if isPrefixOfL centralPatSuf (rest.drop cap.length) then some cap
    else none
  else none

/-- `re.search` for the central pattern: the leftmost position where it
matches, returning the capture. -/
def findCentral : List Char → Option (List Char)
  | [] => none
  | c :: rest =>
      match matchCentralAt (c :: rest) with
      | some cap => some cap
      | none => findCentral rest

/-- Try the factor pattern at the head of the text; on success also return
the remainder after the whole match (where `re.findall` resumes). -/
def matchFactorAt (cs : List Char) : Option (List Char × List Char) :=
  if isPrefixOfL factorPatPre cs then
    let rest := cs.drop factorPatPre.length
    let cap := rest.takeWhile (fun c => c ≠ dquote)
    if cap.isEmpty then none
    else
      match rest.drop cap.length with
      | c :: rest2 => if c = dquote then some (cap, rest2) else none
      | [] => none
  else none

/-- `re.findall` for the factor pattern: non-overlapping leftmost matches,
resuming after each match. The scan is fuelled by the text length, which the
strictly shrinking remainder never exhausts. -/
def findFactorsGo : Nat → List Char → List (List Char)
  | 0, _ => []
  | _ + 1, [] => []
  | fuel + 1, c :: rest =>
      match matchFactorAt (c :: rest) with
      | some capAfter => capAfter.1 :: findFactorsGo fuel capAfter.2
      | none => findFactorsGo fuel rest

def findFactors (cs : List Char) : List (List Char) := findFactorsGo cs.length cs

/-- The label selection of `_generate_mindmap_placeholder` (lines 318-338):
extracted central label or "Main Issue"; up to 4 extracted factor labels or
the four defaults, padded with empty strings to exactly 4. -/
def mindmapLabels (prompt : String) : String × List String :=
  let central := match findCentral prompt.toList with
    | some cap => String.mk cap
    | none => "Main Issue"
  let factors := (findFactors prompt.toList).map String.mk
  let factors := if factors ≠ [] then factors.take 4
    else ["Factor 1", "Factor 2", "Factor 3", "Factor 4"]
  let factors := factors ++ List.replicate (4 - factors.length) ""
  (central, factors)

/-! ### Quote-freedom: the extraction patterns both require a double quote -/

/-- No double-quote character occurs in the string. -/
abbrev noQuote (s : String) : Prop := ∀ c ∈ s.toList, c ≠ dquote

theorem noQuote_append (a b : String) (ha : noQuote a) (hb : noQuote b) :
    noQuote (a ++ b) := by
  intro c hc
  rw [show (a ++ b).toList = a.toList ++ b.toList from String.data_append a b] at hc
  rcases List.mem_append.mp hc with h | h
  · exact ha c h
  · exact hb c h

theorem noQuote_pyJoin (sep : String) (l : List String) (hsep : noQuote sep)
    (hall : ∀ x ∈ l, noQuote x) : noQuote (pyJoin sep l) := by
  induction l with
  | nil => intro c hc; simp [pyJoin] at hc
  | cons x xs ih =>
      cases xs with
      | nil => exact hall x (by simp)
      | cons y ys =>
          rw [pyJoin_cons_ne_nil _ _ _ (by simp)]
          exact noQuote_append _ _
            (noQuote_append _ _ (hall x (by simp)) hsep)
            (ih (fun z hz => hall z (List.mem_cons_of_mem _ hz)))

theorem isPrefixOfL_mem (pat cs : List Char) (h : isPrefixOfL pat cs = true) :
    ∀ x ∈ pat, x ∈ cs := by
  induction pat generalizing cs with
  | nil => intro x hx; simp at hx
  | cons a as ih =>
      cases cs with
      | nil => simp [isPrefixOfL] at h
      | cons b bs =>
          simp only [isPrefixOfL, Bool.and_eq_true, beq_iff_eq] at h
          intro x hx
          rcases List.mem_cons.mp hx with rfl | hx'
          · rw [h.1]; exact List.mem_cons_self _ _
          · exact List.mem_cons_of_mem _ (ih bs h.2 x hx')

theorem matchCentralAt_none (cs : List Char) (h : ∀ c ∈ cs, c ≠ dquote) :
    matchCentralAt cs = none := by
  have hpre : isPrefixOfL centralPatPre cs = false := by
    by_contra hcon
    have htrue : isPrefixOfL centralPatPre cs = true := by
      cases hb : isPrefixOfL centralPatPre cs
      · exact absurd hb hcon
      · rfl
    have : dquote ∈ cs := isPrefixOfL_mem _ _ htrue dquote (by decide)
    exact h dquote this rfl
  unfold matchCentralAt
  rw [hpre]
  rfl

theorem matchFactorAt_none (cs : List Char) (h : ∀ c ∈ cs, c ≠ dquote) :
    matchFactorAt cs = none := by
  have hpre : isPrefixOfL factorPatPre cs = false := by
    by_contra hcon
    have htrue : isPrefixOfL factorPatPre cs = true := by
      cases hb : isPrefixOfL factorPatPre cs
      · exact absurd hb hcon
      · rfl
    have : dquote ∈ cs := isPrefixOfL_mem _ _ htrue dquote (by decide)
    exact h dquote this rfl
  unfold matchFactorAt
  rw [hpre]
  rfl

theorem findCentral_none (cs : List Char) (h : ∀ c ∈ cs, c ≠ dquote) :
    findCentral cs = none := by
  induction cs with
  | nil => rfl
  | cons c rest ih =>
      unfold findCentral
      rw [matchCentralAt_none _ h]
      exact ih (fun x hx => h x (List.mem_cons_of_mem _ hx))

theorem findFactorsGo_nil (fuel : Nat) :
    ∀ cs, (∀ c ∈ cs, c ≠ dquote) → findFactorsGo fuel cs = [] := by
  induction fuel with
  | zero => intro cs _; rfl
  | succ fuel ih =>
      intro cs h
      cases cs with
      | nil => rfl
      | cons c rest =>
          unfold findFactorsGo
          rw [matchFactorAt_none _ h]
          exact ih rest (fun x hx => h x (List.mem_cons_of_mem _ hx))

theorem strContainsGo_append (pat a b : List Char)
    (h : strContains.go pat b = true) : strContains.go pat (a ++ b) = true := by
  induction a with
  | nil => simpa using h
  | cons c cs ih =>
      unfold strContains.go
      rw [List.cons_append]
      simp only [Bool.or_eq_true]
      exact Or.inr ih

theorem strContains_append_right (s t pat : String)
    (h : strContains t pat = true) : strContains (s ++ t) pat = true := by
  unfold strContains at h ⊢
  rw [show (s ++ t).toList = s.toList ++ t.toList from String.data_append s t]
  exact strContainsGo_append _ _ _ h

theorem pyLower_append (s t : String) :
    pyLower (s ++ t) = pyLower s ++ pyLower t := by
  unfold pyLower
  rw [show (s ++ t).toList = s.toList ++ t.toList from String.data_append s t,
    List.map_append]
  rfl

theorem pyJoin_last_decomp (sep : String) (ps : List String) (last : String) :
    ∃ pre, pyJoin sep (ps ++ [last]) = pre ++ last := by
  induction ps with
  | nil => exact ⟨"", by simp [pyJoin]⟩
  | cons x xs ih =>
      obtain ⟨pre, hpre⟩ := ih
      refine ⟨x ++ sep ++ pre, ?_⟩
      rw [List.cons_append, pyJoin_cons_ne_nil _ _ _ (by simp), hpre,
        String.append_assoc, String.append_assoc, String.append_assoc]

/-! ### Quote-freedom of the story prompt's components -/

theorem noQuote_of_sub (s : String) (l : List Char) (h : noQuote s)
    (hsub : ∀ c ∈ l, c ∈ s.toList) : ∀ c ∈ l, c ≠ dquote :=
  fun c hc => h c (hsub c hc)

theorem noQuote_mk_of_sub (s : String) (l : List Char) (h : noQuote s)
    (hsub : ∀ c ∈ l, c ∈ s.toList) : noQuote (String.mk l) :=
  fun c hc => h c (hsub c hc)

theorem pyStrip_sub (s : String) : ∀ c ∈ (pyStrip s).toList, c ∈ s.toList := by
  intro c hc
  unfold pyStrip at hc
  simp only [String.toList] at hc ⊢
  have h1 := List.mem_reverse.mp hc
  have h2 := (List.dropWhile_sublist _).mem h1
  have h3 := List.mem_reverse.mp h2
  exact (List.dropWhile_sublist _).mem h3

theorem noQuote_summarize (s : String) (h : noQuote s) :
    noQuote (_summarize_story s) := by
  unfold _summarize_story
  dsimp only
  split
  · exact noQuote_mk_of_sub s _ h (pyStrip_sub s)
  · apply noQuote_append
    · apply noQuote_mk_of_sub s _ h
      intro c hc
      have := List.take_subset _ _ (by simpa using hc)
      exact pyStrip_sub s c (by simpa using this)
    · decide

theorem noQuote_underscores (s : String) (h : noQuote s) :
    noQuote (underscoresToSpaces s) := by
  intro c hc
  unfold underscoresToSpaces at hc
  simp only [String.toList] at hc
  obtain ⟨c', hc', rfl⟩ := List.mem_map.mp hc
  by_cases hu : c' = '_'
  · rw [if_pos hu]; decide
  · rw [if_neg hu]; exact h c' hc'

theorem valid_emotion_noQuote (e : String) (he : e ∈ VALID_EMOTIONS) : noQuote e := by
  fin_cases he <;> decide

theorem profile_colors_noQuote :
    ∀ e p, EMOTION_PROFILES e = some p → ∀ s ∈ p.colors, noQuote s := by
  intro e p h
  unfold EMOTION_PROFILES at h
  split at h <;> simp_all <;> subst h <;> decide

theorem categoryPalette_noQuote (cat : String) :
    ∀ s ∈ categoryPalette cat, noQuote s := by
  unfold categoryPalette
  split_ifs <;> decide

theorem noQuote_color_palette (ord : List String → List String)
    (hord : ∀ l, (ord l).Perm l.dedup) (es : List String) (cat : String) :
    noQuote (_get_color_palette ord es cat) := by
  unfold _get_color_palette
  dsimp only
  apply noQuote_append _ _ (by decide)
  apply noQuote_pyJoin _ _ (by decide)
  intro x hx
  have hx1 := List.take_subset _ _ hx
  split at hx1
  · have := List.dedup_subset _ ((hord _).mem_iff.mp hx1)
    exact categoryPalette_noQuote cat x this
  · have hxl := List.dedup_subset _ ((hord _).mem_iff.mp hx1)
    unfold profileColors at hxl
    obtain ⟨p, hp, hxp⟩ := List.mem_flatMap.mp hxl
    obtain ⟨e, -, hep⟩ := List.mem_filterMap.mp hp
    exact profile_colors_noQuote e p hep x hxp

theorem noQuote_emotion_context (es : List String) (cat : String)
    (hes : ∀ e ∈ es, e ∈ VALID_EMOTIONS) :
    noQuote (_build_emotion_context es cat) := by
  unfold _build_emotion_context
  apply noQuote_pyJoin _ _ (by decide)
  intro x hx
  simp only at hx
  rcases List.mem_append.mp hx with h | h
  · split at h
    · rcases List.mem_singleton.mp h with rfl
      apply noQuote_append _ _ (by decide)
      apply noQuote_pyJoin _ _ (by decide)
      intro n hn
      obtain ⟨e, he, hne⟩ := List.mem_filterMap.mp hn
      cases hpe : EMOTION_PROFILES e with
      | none => rw [hpe] at hne; simp at hne
      | some p =>
          rw [hpe] at hne
          simp only [Option.map_some', Option.some.injEq] at hne
          rw [← hne]
          exact noQuote_underscores e (valid_emotion_noQuote e (hes e he))
    · simp at h
  · rcases List.mem_singleton.mp h with rfl
    split_ifs <;> decide

theorem noQuote_factor_parts (toStr : Json → String) (factors : Option (List Json))
    (hf : ∀ f ∈ factors.getD [], match factorDictGet f "factor" with
      | .str s => noQuote s
      | v => pyTruthy v = false) :
    ∀ x ∈ storyFactorParts toStr factors, noQuote x := by
  intro x hx
  unfold storyFactorParts at hx
  cases factors with
  | none => simp at hx
  | some fl =>
      simp only at hx
      split at hx
      · simp at hx
      · split at hx
        · simp at hx
        · rcases List.mem_singleton.mp hx with rfl
          apply noQuote_append _ _ (by decide)
          apply noQuote_pyJoin _ _ (by decide)
          intro n hn
          obtain ⟨m, hm, rfl⟩ := List.mem_map.mp hn
          apply noQuote_append _ _ (by decide)
          obtain ⟨f, hfmem, hfm⟩ := List.mem_filterMap.mp hm
          have hcase := hf f hfmem
          cases hmatch : factorDictGet f "factor" with
          | str s =>
              rw [hmatch] at hfm hcase
              dsimp only at hfm hcase
              split at hfm
              · rcases Option.some.inj hfm with rfl
                exact hcase
              · simp at hfm
          | null =>
              rw [hmatch] at hfm hcase
              dsimp only at hfm hcase
              rw [hcase] at hfm
              simp at hfm
          | bool b =>
              rw [hmatch] at hfm hcase
              dsimp only at hfm hcase
              rw [hcase] at hfm
              simp at hfm
          | num n' =>
              rw [hmatch] at hfm hcase
              dsimp only at hfm hcase
              rw [hcase] at hfm
              simp at hfm
          | arr a =>
              rw [hmatch] at hfm hcase
              dsimp only at hfm hcase
              rw [hcase] at hfm
              simp at hfm
          | obj o =>
              rw [hmatch] at hfm hcase
              dsimp only at hfm hcase
              rw [hcase] at hfm
              simp at hfm

theorem noQuote_central_part (story : String) (cs : Option String)
    (hstory : noQuote story)
    (hcs : ∀ s, cs = some s → noQuote s) :
    noQuote (storyCentralPart story cs) := by
  cases cs with
  | none =>
      have heq : storyCentralPart story none
          = "\nSTORY TO ILLUSTRATE:\n" ++ _summarize_story story := rfl
      rw [heq]
      exact noQuote_append _ _ (by decide) (noQuote_summarize story hstory)
  | some s =>
      by_cases hemp : (s != "") = true
      · have heq : storyCentralPart story (some s) = "\nCENTRAL SITUATION:\n" ++ s := by
          unfold storyCentralPart
          dsimp only
          rw [if_pos hemp]
        rw [heq]
        exact noQuote_append _ _ (by decide) (hcs s rfl)
      · have heq : storyCentralPart story (some s)
            = "\nSTORY TO ILLUSTRATE:\n" ++ _summarize_story story := by
          unfold storyCentralPart
          dsimp only
          rw [if_neg hemp]
        rw [heq]
        exact noQuote_append _ _ (by decide) (noQuote_summarize story hstory)

/-- Claim C10 counterexample: a narrative that embeds the factor-pattern text
makes the renderer's extraction match inside the story summary, so the
rendered factor labels are NOT always the defaults. -/
theorem story_prompt_pattern_match_cx :
    is_story_prompt (build_story_prompt List.dedup (fun _ => "")
      "Icon + label: \"Rent\" was printed on the flyer that upset me so much today."
      "bad" ["down"] none none) = true ∧
    mindmapLabels (build_story_prompt List.dedup (fun _ => "")
      "Icon + label: \"Rent\" was printed on the flyer that upset me so much today."
      "bad" ["down"] none none)
      = ("Main Issue", ["Rent", "", "", ""]) ∧
    mindmapLabels (build_story_prompt List.dedup (fun _ => "")
      "Icon + label: \"Rent\" was printed on the flyer that upset me so much today."
      "bad" ["down"] none none)
      ≠ ("Main Issue", ["Factor 1", "Factor 2", "Factor 3", "Factor 4"]) :=
  ⟨by decide, by decide, by decide⟩

/-- Claim C10 (amended): every prompt produced by `build_story_prompt`
contains the mind-map marker phrase, so the placeholder renderer always
selects the mind-map layout; and provided the narrative and the central
stressor contain no double-quote character and every truthy factor label
value is a quote-free string (so no truthy non-string value reaches the
f-string, whose `str()` rendering of a container can itself introduce
quotes) — all true of everything the analyzer or its fallback produces —
the renderer's label-extraction patterns, which both require a double
quote, cannot match, so the rendered labels are the defaults "Main Issue"
and "Factor 1" through "Factor 4". A crafted input embedding the literal
pattern text defeats the label part (see the counterexample), which is why
the quote-freedom hypotheses are needed. -/
theorem build_story_prompt_labels_default :
    ∀ (ord : List String → List String), (∀ l, (ord l).Perm l.dedup) →
    ∀ (toStr : Json → String),
    ∀ story cat es cs fs,
      is_story_prompt (build_story_prompt ord toStr story cat es cs fs) = true ∧
      (noQuote story →
       (∀ s, cs = some s → noQuote s) →
       (∀ f ∈ fs.getD ([] : List Json), match factorDictGet f "factor" with
          | Json.str s => noQuote s
          | v => pyTruthy v = false) →
       (∀ e ∈ es, e ∈ VALID_EMOTIONS) →
       mindmapLabels (build_story_prompt ord toStr story cat es cs fs)
         = ("Main Issue", ["Factor 1", "Factor 2", "Factor 3", "Factor 4"])) := by
  intro ord hord toStr story cat es cs fs
  constructor
  · unfold build_story_prompt
    have hlist : ([STORY_BASE_STYLE, storyCentralPart story cs] ++
        storyFactorParts toStr fs ++
        ["\nEMOTIONAL CONTEXT:\n" ++ _build_emotion_context es cat,
         "\nCOLOR MOOD:\n" ++ _get_color_palette ord es cat,
         STORY_FINAL_INSTRUCTION])
        = (([STORY_BASE_STYLE, storyCentralPart story cs] ++
            storyFactorParts toStr fs ++
            ["\nEMOTIONAL CONTEXT:\n" ++ _build_emotion_context es cat,
             "\nCOLOR MOOD:\n" ++ _get_color_palette ord es cat]) ++
           [STORY_FINAL_INSTRUCTION]) := by
      simp [List.append_assoc]
    rw [hlist]
    obtain ⟨pre, hpre⟩ := pyJoin_last_decomp "\n" _ STORY_FINAL_INSTRUCTION
    rw [hpre]
    unfold is_story_prompt
    rw [pyLower_append]
    have hmm : strContains (pyLower pre ++ pyLower STORY_FINAL_INSTRUCTION) "mind-map"
        = true :=
      strContains_append_right _ _ _ (by decide)
    simp [hmm]
  · intro hstory hcs hfs hes
    have hnq : noQuote (build_story_prompt ord toStr story cat es cs fs) := by
      unfold build_story_prompt
      apply noQuote_pyJoin _ _ (by decide)
      intro part hpart
      rcases List.mem_append.mp hpart with h1 | h2
      · rcases List.mem_append.mp h1 with h3 | h4
        · rcases List.mem_cons.mp h3 with rfl | h5
          · decide
          · rcases List.mem_singleton.mp h5 with rfl
            exact noQuote_central_part story cs hstory hcs
        · exact noQuote_factor_parts toStr fs hfs part h4
      · rcases List.mem_cons.mp h2 with rfl | h6
        · exact noQuote_append _ _ (by decide) (noQuote_emotion_context es cat hes)
        · rcases List.mem_cons.mp h6 with rfl | h7
          · exact noQuote_append _ _ (by decide) (noQuote_color_palette ord hord es cat)
          · rcases List.mem_singleton.mp h7 with rfl
            decide
    have hff : findFactors (build_story_prompt ord toStr story cat es cs fs).toList = [] :=
      findFactorsGo_nil _ _ hnq
    unfold mindmapLabels
    rw [findCentral_none _ hnq, hff]
    rfl

/-- Witness for claim C10's amended theorem at a concrete quote-free request. -/
theorem build_story_prompt_labels_default_witness :
    is_story_prompt (build_story_prompt List.dedup (fun _ => "")
      "I failed my driving test today and I keep replaying every mistake in my head."
      "bad" ["down"] none none) = true ∧
    mindmapLabels (build_story_prompt List.dedup (fun _ => "")
      "I failed my driving test today and I keep replaying every mistake in my head."
      "bad" ["down"] none none)
      = ("Main Issue", ["Factor 1", "Factor 2", "Factor 3", "Factor 4"]) :=
  ⟨(build_story_prompt_labels_default List.dedup (fun l => List.Perm.refl _)
      (fun _ => "")
      "I failed my driving test today and I keep replaying every mistake in my head."
      "bad" ["down"] none none).1,
   (build_story_prompt_labels_default List.dedup (fun l => List.Perm.refl _)
      (fun _ => "")
      "I failed my driving test today and I keep replaying every mistake in my head."
      "bad" ["down"] none none).2
     (by decide) (fun s h => Option.noConfusion h)
     (fun f hf => absurd hf (List.not_mem_nil f)) (by decide)⟩

/-! ## Placeholder renderer (gemini_client.py, claim C9)

The two placeholder layouts are pure pixel/drawing computations. The model
renders each layout to an explicit drawing plan: the gradient as a pixel
function and every PIL draw call (lines, ellipses, polygons, rectangles,
text) as a command with the same computed coordinates, colors and text as the
source. Python computes a few quantities in floating point
(`(x + y) / (2 * size)`, `size * 0.22`, ...); the model computes the same
values in exact integer arithmetic. Text centering uses `draw.textbbox`,
whose metrics come from the font the process found on its filesystem; that
font-metric function `fm` is an explicit parameter fixed for the process. To
state that the rendering itself consults no randomness and no system clock,
the renderers also take a `RenderEnv` carrying those sources; the claim is
that the output is independent of it. -/

/-- Ambient sources of nondeterminism available to the process: clock samples
and a randomness stream. The renderer receives but never consults them. -/
structure RenderEnv where
  now : Nat → Nat
  rand : Nat → Nat

structure RGB where
  r : Nat
  g : Nat
  b : Nat
deriving DecidableEq

def anyKeyword (pl : String) (ws : List String) : Bool :=
  ws.any (fun w => strContains pl w)

/-- The keyword-sniffed palette of `_generate_abstract_placeholder`. -/
def abstractPalette (prompt_lower : String) : RGB × RGB × RGB :=
  if anyKeyword prompt_lower ["happy", "joy", "bright", "warm"] then
    (⟨255, 245, 220⟩, ⟨255, 218, 185⟩, ⟨255, 200, 150⟩)
  else if anyKeyword prompt_lower ["calm", "chill", "peaceful", "relaxed"] then
    (⟨230, 245, 255⟩, ⟨200, 230, 220⟩, ⟨180, 220, 200⟩)
  else if anyKeyword prompt_lower ["sad", "down", "low"] then
    (⟨220, 225, 235⟩, ⟨200, 210, 225⟩, ⟨180, 190, 210⟩)
  else if anyKeyword prompt_lower ["angry", "fuming", "intense"] then
    (⟨245, 225, 225⟩, ⟨235, 215, 215⟩, ⟨220, 180, 180⟩)
  else
    (⟨240, 245, 250⟩, ⟨225, 235, 245⟩, ⟨210, 220, 235⟩)

/-- One pixel of the diagonal gradient: the exact value of
`int(c1 * (1 - ratio) + c2 * ratio)` with `ratio = (x + y) / (2 * size)`. -/
def gradientPixel (c1 c2 : RGB) (size x y : Nat) : RGB :=
  let mix := fun (a b : Nat) => (a * (2 * size - (x + y)) + b * (x + y)) / (2 * size)
  ⟨mix c1.r c2.r, mix c1.g c2.g, mix c1.b c2.b⟩

structure CircleCmd where
  left : Int
  top : Int
  right : Int
  bottom : Int
  fill : Option RGB
  outline : Option RGB
  width : Nat
deriving DecidableEq

/-- The three concentric decoration circles of the abstract layout. -/
def abstractCircles (size : Nat) (accent : RGB) : List CircleCmd :=
  (List.range 3).map (fun i =>
    let radius : Int := (size : Int) / (3 + (i : Int))
    let offset : Int := (i : Int) * 30
    let center : Int := (size : Int) / 2
    let cc : RGB := ⟨min 255 (accent.r + 20), min 255 (accent.g + 20), min 255 (accent.b + 20)⟩
    ⟨center - radius + offset, center - radius - offset,
     center + radius + offset, center + radius - offset, none, some cc, 3⟩)

structure AbstractRender where
  size : Nat
  pixel : Nat → Nat → RGB
  circles : List CircleCmd

/-- `GeminiClient._generate_abstract_placeholder`. -/
def generate_abstract_placeholder (env : RenderEnv) (prompt_lower : String)
    (size : Nat) : AbstractRender :=
  let pal := abstractPalette prompt_lower
  { size := size
  , pixel := fun x y => gradientPixel pal.1 pal.2.1 size x y
  , circles := abstractCircles size pal.2.2 }

inductive IconCmd where
  | poly (points : List (Int × Int)) (outline : RGB) (width : Nat)
  | circle (c : CircleCmd)
  | rect (left top right bottom : Int) (outline : RGB) (width : Nat)
  | cross (horizontal vertical : Int × Int × Int × Int) (color : RGB) (width : Nat)
deriving DecidableEq

structure TextCmd where
  x : Int
  y : Int
  text : String
  large : Bool
  color : RGB
deriving DecidableEq

structure MindmapRender where
  size : Nat
  background : RGB
  connectors : List (Int × Int × Int × Int)
  centerCircles : List CircleCmd
  factorCircles : List CircleCmd
  icons : List IconCmd
  labels : List TextCmd
deriving DecidableEq

/-- The central-label word wrap (greedy packing at 25 characters; Python
counts the joining space in the length test and strips the seam). -/
def wrapLoop (maxChars : Nat) : List String → String → List String → List String
  | [], current, lines => if current = "" then lines else lines ++ [current]
  | w :: ws, current, lines =>
      if (current ++ " " ++ w).length ≤ maxChars then
        wrapLoop maxChars ws (pyStrip (current ++ " " ++ w)) lines
      else
        let lines := if current = "" then lines else lines ++ [current]
        wrapLoop maxChars ws w lines

/-- Python `str.split()` without arguments: split on whitespace runs,
dropping empty pieces. -/
def pySplitWs (s : String) : List String :=
  (s.toList.splitOnP Char.isWhitespace).filterMap
    (fun piece => if piece.isEmpty then none else some (String.mk piece))

def wrapCentral (label : String) : List String :=
  if label.length > 25 then wrapLoop 25 (pySplitWs label) "" [] else [label]

/-- The factor-label wrap: split in half at word level when there are at
least two words, else a hard cut at 18 characters. -/
def wrapFactor (label : String) : List String :=
  if label.length > 18 then
    let words := pySplitWs label
    if words.length ≥ 2 then
      let mid := words.length / 2
      [pyJoin " " (words.take mid), pyJoin " " (words.drop mid)]
    else
      if label.length > 18 then
        [String.mk (label.toList.take 18), String.mk (label.toList.drop 18)]
      else [label]
  else [label]

def mindmapFactorColors : List RGB :=
  [⟨255, 182, 193⟩, ⟨176, 224, 230⟩, ⟨255, 218, 185⟩, ⟨221, 160, 221⟩]

/-- The per-factor icon glyph (triangle, circle, square, diamond, else cross). -/
def mindmapIcon (i : Nat) (fx fy iconSize : Int) (outline : RGB) : IconCmd :=
  if i = 0 then
    .poly [(fx, fy - iconSize), (fx - iconSize, fy + iconSize / 2),
           (fx + iconSize, fy + iconSize / 2)] outline 2
  else if i = 1 then
    .circle ⟨fx - iconSize / 2, fy - iconSize / 2, fx + iconSize / 2, fy + iconSize / 2,
      none, some outline, 2⟩
  else if i = 2 then
    .rect (fx - iconSize / 2) (fy - iconSize / 2) (fx + iconSize / 2) (fy + iconSize / 2)
      outline 2
  else if i = 3 then
    .poly [(fx, fy - iconSize), (fx + iconSize, fy), (fx, fy + iconSize),
           (fx - iconSize, fy)] outline 2
  else
    .cross (fx - iconSize, fy, fx + iconSize, fy) (fx, fy - iconSize, fx, fy + iconSize)
      outline 2

/-- Wrapped text lines drawn centered at `cx` starting at `startY` with line
advance `lineH`; `fm` gives each line's pixel width under the process font. -/
def centeredTextCmds (fm : Bool → String → Nat) (large : Bool) (cx : Int)
    (startY : Int) (lineH : Int) (color : RGB) (lines : List String) : List TextCmd :=
  (List.range lines.length).map (fun i =>
    let line := lines.getD i ""
    { x := cx - ((fm large line : Int)) / 2
    , y := startY + (i : Int) * lineH
    , text := line
    , large := large
    , color := color })

/-- `GeminiClient._generate_mindmap_placeholder`. -/
def generate_mindmap_placeholder (env : RenderEnv) (fm : Bool → String → Nat)
    (prompt : String) (size : Nat) : MindmapRender :=
  let labels := mindmapLabels prompt
  let central := labels.1
  let factors := labels.2
  let centerX : Int := (size : Int) / 2
  let centerY : Int := (size : Int) / 2
  let centerRadius : Int := ((size * 10) / 100 : Nat)
  let factorRadius : Int := ((size * 65) / 1000 : Nat)
  let corner22 : Int := ((size * 22) / 100 : Nat)
  let corner78 : Int := ((size * 78) / 100 : Nat)
  let positions : List (Int × Int) :=
    [(corner22, corner22), (corner78, corner22), (corner22, corner78), (corner78, corner78)]
  let connectors := positions.map (fun p => (centerX, centerY, p.1, p.2))
  let innerR1 := centerRadius - 15
  let innerR2 := centerRadius - 30
  let centerCircles :=
    [(⟨centerX - centerRadius, centerY - centerRadius,
       centerX + centerRadius, centerY + centerRadius,
       some ⟨135, 206, 235⟩, some ⟨100, 150, 180⟩, 2⟩ : CircleCmd)] ++
    (if innerR1 > 5 then
      [(⟨centerX - innerR1, centerY - innerR1, centerX + innerR1, centerY + innerR1,
         none, some ⟨100, 150, 180⟩, 2⟩ : CircleCmd)] else []) ++
    (if innerR2 > 5 then
      [(⟨centerX - innerR2, centerY - innerR2, centerX + innerR2, centerY + innerR2,
         some ⟨100, 150, 180⟩, none, 0⟩ : CircleCmd)] else [])
  let factorCircles := (List.range positions.length).map (fun i =>
    let p := positions.getD i (0, 0)
    let color := mindmapFactorColors.getD (i % mindmapFactorColors.length) ⟨0, 0, 0⟩
    let outline : RGB := ⟨color.r - 40, color.g - 40, color.b - 40⟩
    (⟨p.1 - factorRadius, p.2 - factorRadius, p.1 + factorRadius, p.2 + factorRadius,
      some color, some outline, 2⟩ : CircleCmd))
  let icons := (List.range positions.length).map (fun i =>
    let p := positions.getD i (0, 0)
    let color := mindmapFactorColors.getD (i % mindmapFactorColors.length) ⟨0, 0, 0⟩
    let outline : RGB := ⟨color.r - 40, color.g - 40, color.b - 40⟩
    mindmapIcon i p.1 p.2 (factorRadius - 10) outline)
  let textColor : RGB := ⟨60, 60, 70⟩
  let centralLabelCmds := centeredTextCmds fm true centerX
    (centerY + centerRadius + 10) 20 textColor (wrapCentral central)
  let factorLabelCmds := (List.range positions.length).flatMap (fun i =>
    let p := positions.getD i (0, 0)
    centeredTextCmds fm false p.1 (p.2 + factorRadius + 8) 16 textColor
      (wrapFactor (factors.getD i "")))
  { size := size
  , background := ⟨250, 252, 255⟩
  , connectors := connectors
  , centerCircles := centerCircles
  , factorCircles := factorCircles
  , icons := icons
  , labels := centralLabelCmds ++ factorLabelCmds }

inductive PlaceholderRender where
  | abstract (a : AbstractRender)
  | mindmap (m : MindmapRender)

/-- `GeminiClient._generate_placeholder_image`: layout dispatch by prompt
content, then the selected renderer. -/
def generate_placeholder_image (env : RenderEnv) (fm : Bool → String → Nat)
    (prompt : String) (size : Nat) : PlaceholderRender :=
  if is_story_prompt prompt then
    .mindmap (generate_mindmap_placeholder env fm prompt size)
  else
    .abstract (generate_abstract_placeholder env (pyLower prompt) size)

/-- Claim C9: the placeholder renderer is deterministic — its entire drawing
plan is a function of the prompt text, the canvas size and the process's
fixed font metrics alone, with no dependence on the clock or on any
randomness source: any two environments (any two invocations, in the same or
different runs of the process with the same fonts) yield identical output.
Byte-identical image files then follow from the imaging library being a
fixed deterministic function of this plan. -/
theorem placeholder_renderer_env_independent :
    ∀ (fm : Bool → String → Nat) (prompt : String) (size : Nat)
      (env₁ env₂ : RenderEnv),
      generate_placeholder_image env₁ fm prompt size
        = generate_placeholder_image env₂ fm prompt size := by
  intro fm prompt size env₁ env₂
  rfl

end EmotionVisualizer
